import Mathlib

/-!
# Verification of the qdb-blaster per-table blasting engine

A shallow embedding of the core of `src/blasting.rs` (together with the data
model of `src/settings.rs` and `src/col.rs`): row distribution across senders,
synthetic data generation, batch assembly and emission ordering, the sender
run loop with its flush/keepalive/pacing behaviour, identifier validation,
and the column classifier.

Randomness is modelled by an explicit stream of natural-number draws
(`Rng`): each call site of `random_range(lo..hi)` (exclusive) consumes one
draw `d` and yields `lo + d % (hi - lo)`, and `random_range(lo..=hi)`
(inclusive) yields `lo + d % (hi + 1 - lo)`, so every modelled draw lies in
the range the Rust API guarantees.  Machine integers are modelled by `Nat`
and `Int` (the Rust arithmetic in this file stays far from the `u64`/`i64`
boundaries on all reachable inputs).  `f64` values (only produced, never
inspected, by `generate_double`) are represented by their underlying random
draw.
-/

/-! ## Data model (`src/col.rs`, `src/settings.rs`) -/

/-- `ColType` from `src/col.rs`. -/
inductive ColType
  | Symbol
  | Timestamp
  | Long
  | Double
deriving DecidableEq, Repr

/-- `SendSettings` from `src/settings.rs`; durations are in nanoseconds. -/
structure SendSettings where
  batch_pause : Nat × Nat
  batch_size : Nat × Nat
  parallel_senders : Nat
  tot_rows : Nat
  batches_connection_keepalive : Nat
deriving Repr

/-- `Table` from `src/settings.rs`. -/
structure Table where
  schema : List (String × ColType)
  designated_ts : String
  send : SendSettings

/-! ## Row distribution (`blast_table`, src/blasting.rs lines 273-290)

`base_rows_per_sender = total_rows / parallel_senders`,
`extra_rows = total_rows % parallel_senders`, and sender `sender_id` gets
`base + (if sender_id < extra_rows then 1 else 0)`.  The Rust comparison is
`sender_id < extra_rows as u16`; since `extra_rows < parallel_senders ≤
2^16 - 1` the `u64 → u16` cast is lossless, so the `Nat` comparison below is
faithful. -/

/-- Rows assigned to sender `sender_id` by `blast_table`. -/
def rows_for_sender (total_rows parallel_senders sender_id : Nat) : Nat :=
  total_rows / parallel_senders +
    if sender_id < total_rows % parallel_senders then 1 else 0

/-- The quotas of all senders of a table, in sender-id order. -/
def senderQuotas (total_rows parallel_senders : Nat) : List Nat :=
  (List.range parallel_senders).map (rows_for_sender total_rows parallel_senders)

/-! ## Identifier validation (`validate_names`, src/blasting.rs lines 361-381)

`TableName::new` / `ColumnName::new` of the questdb client are external
collaborators; they are modelled by an abstract `NameValidator` of boolean
predicates.  `validate_names` checks, in source order: the table name, each
schema column name, then the designated-timestamp column name, failing on
the first offender with an error that carries the offending identifier
(mirroring the `with_context` messages `Invalid table name: '…'`,
`Invalid column name: '…'`, `Invalid designated timestamp column name: '…'`). -/

/-- Abstract identifier rules of the ingestion protocol
(`TableName::new` / `ColumnName::new`). -/
structure NameValidator where
  tableOk : String → Bool
  columnOk : String → Bool

/-- The three error shapes produced by `validate_names`, each naming the
offending identifier. -/
inductive NameError
  | invalidTable (name : String)
  | invalidColumn (name : String)
  | invalidDesignatedTs (name : String)
deriving DecidableEq, Repr

/-- The column-name loop of `validate_names` (src/blasting.rs lines 366-369). -/
def validateColumns (v : NameValidator) : List (String × ColType) → Except NameError Unit
  | [] => .ok ()
  | (n, _) :: rest =>
    if v.columnOk n then validateColumns v rest else .error (.invalidColumn n)

/-- `validate_names` (src/blasting.rs lines 361-381). -/
def validate_names (v : NameValidator) (tableName : String) (tc : Table) :
    Except NameError Unit :=
  if v.tableOk tableName then
    match validateColumns v tc.schema with
    | .error e => .error e
    | .ok () =>
      if v.columnOk tc.designated_ts then .ok ()
      else .error (.invalidDesignatedTs tc.designated_ts)
  else .error (.invalidTable tableName)

/-- What it means for a `NameError` to name an actually-offending identifier
of the given table configuration. -/
def namesOffender (v : NameValidator) (tableName : String) (tc : Table) :
    NameError → Prop
  | .invalidTable n => n = tableName ∧ v.tableOk n = false
  | .invalidColumn n => v.columnOk n = false ∧ n ∈ tc.schema.map Prod.fst
  | .invalidDesignatedTs n => n = tc.designated_ts ∧ v.columnOk n = false

/-! ## `blast_table` up to sender spawning (src/blasting.rs lines 263-335)

The orchestrator's observable effect trace before and including launching
the senders: validation performs no connection; `drop_and_create_table`
(lines 384-430) connects to the admin (PostgreSQL) endpoint and executes the
DROP and CREATE statements; then one sender is spawned per partition.  The
admin client is opaque: connection and statement execution outcomes are
oracles. -/

/-- Connection-or-execution effects of the table orchestrator, in order of
occurrence. -/
inductive BlastEffect
  | adminConnect
  | adminExec (sql : String)
  | spawnSender (id : Nat) (quota : Nat)
deriving DecidableEq, Repr

/-- Table-orchestrator failures surfaced by `blast_table` before senders run. -/
inductive BlastError
  | invalidName (e : NameError)
  | adminConnectFailed
  | adminExecFailed (sql : String)
deriving DecidableEq, Repr

/-- The DROP statement of `drop_and_create_table` (line 395). -/
def dropSql (tableName : String) : String :=
  "DROP TABLE IF EXISTS " ++ tableName

/-- SQL type name per column type (lines 405-410). -/
def sqlTypeName : ColType → String
  | .Symbol => "SYMBOL"
  | .Timestamp => "TIMESTAMP"
  | .Long => "LONG"
  | .Double => "DOUBLE"

/-- The CREATE statement of `drop_and_create_table` (lines 401-417). -/
def createSql (tableName : String) (tc : Table) : String :=
  "CREATE TABLE " ++ tableName ++ " (" ++
    String.intercalate ", "
      (tc.schema.map (fun c => c.1 ++ " " ++ sqlTypeName c.2)) ++
    ") TIMESTAMP(" ++ tc.designated_ts ++ ") PARTITION BY DAY"

/-- `blast_table` up to (and including) spawning the senders: result plus
the ordered trace of connection/execution/spawn effects.  `adminConnectOk`
and `execOk` are the opaque admin client's outcomes. -/
def blast_table_prologue (v : NameValidator) (adminConnectOk : Bool)
    (execOk : String → Bool) (tableName : String) (tc : Table) :
    Except BlastError Unit × List BlastEffect :=
  match validate_names v tableName tc with
  | .error e => (.error (.invalidName e), [])
  | .ok () =>
    if adminConnectOk then
      let d := dropSql tableName
      if execOk d then
        let c := createSql tableName tc
        if execOk c then
          let n := tc.send.parallel_senders
          (.ok (), [.adminConnect, .adminExec d, .adminExec c] ++
            (List.range n).map
              (fun i => .spawnSender i (rows_for_sender tc.send.tot_rows n i)))
        else (.error (.adminExecFailed c),
          [.adminConnect, .adminExec d, .adminExec c])
      else (.error (.adminExecFailed d), [.adminConnect, .adminExec d])
    else (.error .adminConnectFailed, [.adminConnect])

/-- Whether an effect is a connection attempt (admin connect, or a sender
spawn — senders connect to the ingestion endpoint). -/
def isConnectionEffect : BlastEffect → Bool
  | .adminConnect => true
  | .adminExec _ => false
  | .spawnSender _ _ => true

/-! ## Random-draw stream -/

/-- An explicit stream of random draws with a cursor, standing for the
thread-local `rand::rng()` generator (which every draw site of a sender's
thread shares). -/
structure Rng where
  stream : Nat → Nat
  pos : Nat

/-- Consume one draw. -/
def Rng.next (r : Rng) : Nat × Rng :=
  (r.stream r.pos, ⟨r.stream, r.pos + 1⟩)

/-- `rng.random_range(lo..hi)` (half-open): a value in `[lo, hi)` for
`lo < hi`. -/
def Rng.rangeExcl (r : Rng) (lo hi : Nat) : Nat × Rng :=
  let (d, r') := r.next
  (lo + d % (hi - lo), r')

/-- `rng.random_range(lo..=hi)` (inclusive): a value in `[lo, hi]` for
`lo ≤ hi`. -/
def Rng.rangeIncl (r : Rng) (lo hi : Nat) : Nat × Rng :=
  let (d, r') := r.next
  (lo + d % (hi + 1 - lo), r')

/-! ## Synthetic data generator (`DataGenerator`, src/blasting.rs lines 22-83) -/

/-- `SYMBOL_POOL_SIZE` (line 23). -/
def SYMBOL_POOL_SIZE : Nat := 4000

/-- Zero-padding to `width` digits, as Rust's `{:04}` / `{:03}` format
specifiers produce for the values in play (< 10^width). -/
def pad0 (width n : Nat) : String :=
  let s := toString n
  String.mk (List.replicate (width - s.length) '0') ++ s

/-- The region names array (line 45). -/
def regionNames : List String := ["us-east", "us-west", "eu-central", "ap-south"]

/-- The environment names array (line 47). -/
def envNames : List String := ["prod", "stage", "dev"]

/-- Entry `i` of the symbol pool (lines 38-51): the `variants` array of the
five template strings for index `i`, indexed by `i % variants.len()`
(`variants.len() = 5`; the final arm is index 4). -/
def symbolVariant (i : Nat) : String :=
  match i % 5 with
  | 0 => "host-" ++ pad0 4 (i % 100)
  | 1 => "service-" ++ toString (i % 50)
  | 2 => "region-" ++ regionNames.getD (i % 4) ""
  | 3 => "env-" ++ envNames.getD (i % 3) ""
  | _ => "app-" ++ pad0 3 (i % 200)

/-- The pre-generated symbol pool of `DataGenerator::new`. -/
def mkSymbolPool : List String :=
  (List.range SYMBOL_POOL_SIZE).map symbolVariant

/-- A string matches one of the five human-readable templates of the symbol
pool (host/service/region/env/app identifiers). -/
def templateForm (s : String) : Prop :=
  (∃ n, n < 100 ∧ s = "host-" ++ pad0 4 n) ∨
  (∃ n, n < 50 ∧ s = "service-" ++ toString n) ∨
  (∃ n, n < 4 ∧ s = "region-" ++ regionNames.getD n "") ∨
  (∃ n, n < 3 ∧ s = "env-" ++ envNames.getD n "") ∨
  (∃ n, n < 200 ∧ s = "app-" ++ pad0 3 n)

/-- `DataGenerator`: symbol pool, base timestamp (nanoseconds), random
state. -/
structure DataGenerator where
  symbols : List String
  base_timestamp : Int
  rng : Rng

/-- `DataGenerator::new` (lines 34-59). -/
def DataGenerator.new (base_timestamp : Int) (rng : Rng) : DataGenerator :=
  { symbols := mkSymbolPool, base_timestamp := base_timestamp, rng := rng }

/-- The generator with its random state replaced (the only mutation the
generator ever undergoes). -/
def DataGenerator.withRng (g : DataGenerator) (r : Rng) : DataGenerator :=
  { g with rng := r }

/-- `generate_symbol` (lines 61-64): uniform index into the pool. -/
def generate_symbol (g : DataGenerator) : String × DataGenerator :=
  let d := g.rng.rangeExcl 0 g.symbols.length
  (g.symbols.getD d.1 "", { g with rng := d.2 })

/-- `generate_long` (lines 66-68): uniform in `[0, 1_000_000)`. -/
def generate_long (g : DataGenerator) : Int × DataGenerator :=
  let d := g.rng.rangeExcl 0 1000000
  ((d.1 : Int), { g with rng := d.2 })

/-- `generate_double` (lines 70-72): a uniform `f64` in `[0.0, 100.0)`,
represented here by its underlying random draw (the claims never inspect
the floating-point value itself). -/
def generate_double (g : DataGenerator) : Nat × DataGenerator :=
  let d := g.rng.next
  (d.1, { g with rng := d.2 })

/-- `generate_timestamp` (lines 74-82): base ± up to 1 day, in
nanoseconds. -/
def generate_timestamp (g : DataGenerator) : Int × DataGenerator :=
  let d := g.rng.next
  (g.base_timestamp + (-86400000000000 + (d.1 % 172800000000000 : Nat) : Int),
    { g with rng := d.2 })

/-! ## ILP buffer events (`send_batch`, src/blasting.rs lines 203-259)

One constructor per buffer operation the sender performs; a row is the
sequence `table`, then `symbol`s, then field columns, then `atTs`
(`buffer.at`). -/

/-- One buffer operation of the opaque ingestion client. -/
inductive IlpEvent
  | table (name : String)
  | symbol (col : String) (value : String)
  | columnI64 (col : String) (value : Int)
  | columnF64 (col : String) (value : Nat)
  | columnTs (col : String) (value : Int)
  | atTs (value : Int)
deriving DecidableEq, Repr

/-- Is the event a symbol-column write? -/
def IlpEvent.isSymbolWrite : IlpEvent → Bool
  | .symbol _ _ => true
  | _ => false

/-- Is the event a field-column write? -/
def IlpEvent.isFieldWrite : IlpEvent → Bool
  | .columnI64 _ _ => true
  | .columnF64 _ _ => true
  | .columnTs _ _ => true
  | _ => false

/-- Is the event the designated-timestamp write (`buffer.at`)? -/
def IlpEvent.isAtWrite : IlpEvent → Bool
  | .atTs _ => true
  | _ => false

/-- A field event encodes a declared field column with the per-type
encoding of `send_batch`: Long via `column_i64`, Double via `column_f64`,
Timestamp via `column_ts`. -/
def fieldEncodes : String × ColType → IlpEvent → Bool
  | (c, .Long), .columnI64 c' _ => c == c'
  | (c, .Double), .columnF64 c' _ => c == c'
  | (c, .Timestamp), .columnTs c' _ => c == c'
  | _, _ => false

/-- The symbol-emission loop of `send_batch` (lines 220-224). -/
def emitSymbols : List String → DataGenerator → List IlpEvent × DataGenerator
  | [], g => ([], g)
  | c :: rest, g =>
    let s := generate_symbol g
    let r := emitSymbols rest s.2
    (.symbol c s.1 :: r.1, r.2)

/-- The field-emission loop of `send_batch` (lines 227-248).  `none` models
the `unreachable!` panic of the `ColType::Symbol` arm (lines 243-246). -/
def emitFields : List (String × ColType) → DataGenerator →
    Option (List IlpEvent × DataGenerator)
  | [], g => some ([], g)
  | (c, t) :: rest, g =>
    match t with
    | .Long =>
      let v := generate_long g
      (emitFields rest v.2).map (fun p => (.columnI64 c v.1 :: p.1, p.2))
    | .Double =>
      let v := generate_double g
      (emitFields rest v.2).map (fun p => (.columnF64 c v.1 :: p.1, p.2))
    | .Timestamp =>
      let v := generate_timestamp g
      (emitFields rest v.2).map (fun p => (.columnTs c v.1 :: p.1, p.2))
    | .Symbol => none

/-- One iteration of the per-row loop of `send_batch` (lines 211-252):
advance the timestamp cursor by a uniform increment in
`[1_000_000, 10_000_000)` nanoseconds, start the row, write all symbol
columns, write all field columns, then set the designated timestamp to the
cursor.  Returns the buffer operations of the row, the new cursor and the
new generator; `none` models the `unreachable!` panic. -/
def buildRow (tableName : String) (symbolColumns : List String)
    (fieldColumns : List (String × ColType)) (cursor : Int)
    (g : DataGenerator) : Option (List IlpEvent × Int × DataGenerator) :=
  let draw := g.rng.rangeExcl 1000000 10000000
  let cursor' := cursor + (draw.1 : Int)
  let s := emitSymbols symbolColumns { g with rng := draw.2 }
  (emitFields fieldColumns s.2).map
    (fun p => (.table tableName :: (s.1 ++ p.1 ++ [.atTs cursor']),
      cursor', p.2))

/-- The `for _ in 0..batch_size` loop of `send_batch` (lines 211-252):
build `n` rows, threading cursor and generator, concatenating the buffer
operations. -/
def sendRows (tableName : String) (symbolColumns : List String)
    (fieldColumns : List (String × ColType)) :
    Nat → Int → DataGenerator → Option (List IlpEvent × Int × DataGenerator)
  | 0, cursor, g => some ([], cursor, g)
  | n + 1, cursor, g =>
    (buildRow tableName symbolColumns fieldColumns cursor g).bind
      (fun p => (sendRows tableName symbolColumns fieldColumns n p.2.1 p.2.2).map
        (fun q => (p.1 ++ q.1, q.2.1, q.2.2)))

/-- The designated-timestamp values of a buffer-operation trace, in order. -/
def atValues (evs : List IlpEvent) : List Int :=
  evs.filterMap (fun e => match e with | .atTs v => some v | _ => none)

/-! ## Column classification (`blast_table`, src/blasting.rs lines 292-308)

Per sender, the schema is partitioned into `symbol_columns` and
`field_columns`, skipping the designated-timestamp column. -/

/-- The classification loop: symbol columns and field columns, in schema
order, with the designated-timestamp column excluded from both. -/
def classifyColumns (schema : List (String × ColType)) (designated_ts : String) :
    List String × List (String × ColType) :=
  match schema with
  | [] => ([], [])
  | (n, t) :: rest =>
    let r := classifyColumns rest designated_ts
    if n = designated_ts then r
    else
      match t with
      | .Symbol => (n :: r.1, r.2)
      | _ => (r.1, (n, t) :: r.2)

/-! ## The sender run loop (`TableSender::run`, src/blasting.rs lines 99-194)

The loop is modelled as a fuel-indexed small-step execution.  The opaque
ingestion client is modelled by two oracles: `connectOk i` is the outcome of
the sender's `i`-th connection attempt (`connect_ilp`, lines 196-201) and
`flushOk i` the outcome of its `i`-th `sender.flush(buffer)` call (the
per-batch flush of `send_batch`, the keepalive-disconnect flush of line 157,
and the final flush of line 183 all draw from the same sequence).  The state
records, besides the Rust locals (`rows_sent`, `batches_sent`, the open
connection, the timestamp cursor, the generator), the observables the claims
are about: the sender's contribution to the shared `global_sent_counter`,
the sizes of the batches sent, the buffer operations emitted, the number of
keepalive-flush failures that were only warned about (line 158), and flags
marking a failed per-batch/final flush. -/

/-- Static per-sender data plus the environment oracles of one
`TableSender`. -/
structure SenderCfg where
  table_name : String
  symbol_columns : List String
  field_columns : List (String × ColType)
  rows_to_send : Nat
  send_settings : SendSettings
  connectOk : Nat → Bool
  flushOk : Nat → Bool
  stream : Nat → Nat

/-- Mutable state of one `TableSender::run` execution. -/
structure RunState where
  rows_sent : Nat
  batches_sent : Nat
  conn : Bool
  connIdx : Nat
  flushIdx : Nat
  counter : Nat
  warned : Nat
  batchFlushFailed : Bool
  finalFlushFailed : Bool
  batchSizes : List Nat
  trace : List IlpEvent
  cursor : Int
  gen : DataGenerator

/-- Outcome of a full run (the `Result<()>` of `TableSender::run`; `panicked`
stands for an `unreachable!` or empty-`random_range` panic unwinding the
thread). -/
inductive RunResult
  | ok
  | connectError
  | flushBatchError
  | flushFinalError
  | panicked
deriving DecidableEq, Repr

/-- Outcome of one iteration of the `while` loop: return from `run`, or
continue looping. -/
inductive IterOut
  | done (r : RunResult) (s : RunState)
  | cont (s : RunState)

/-- The state carried by an iteration outcome. -/
def IterOut.state : IterOut → RunState
  | .done _ s => s
  | .cont s => s

/-- Lazy connection establishment (lines 120-124): reuse the open
connection, otherwise consume one `connect_ilp` outcome. `none` is a failed
connection attempt (fatal via `?`). -/
def connectStep (cfg : SenderCfg) (s : RunState) : Option RunState :=
  if s.conn then some s
  else if cfg.connectOk s.connIdx then
    some { s with conn := true, connIdx := s.connIdx + 1 }
  else none

/-- Post-flush accounting of a successful batch (lines 142-147):
`rows_sent`, `batches_sent`, the shared counter, and the record of batch
sizes. -/
def accountBatch (actual : Nat) (s : RunState) : RunState :=
  { s with rows_sent := s.rows_sent + actual,
           batches_sent := s.batches_sent + 1,
           counter := s.counter + actual,
           batchSizes := s.batchSizes ++ [actual] }

/-- Keepalive connection cycling (lines 154-169): at the threshold, flush
(a failure is only logged — counted in `warned` — and not propagated), drop
the connection and reset the batch count. -/
def keepaliveStep (cfg : SenderCfg) (s : RunState) : RunState :=
  if cfg.send_settings.batches_connection_keepalive ≤ s.batches_sent then
    { s with flushIdx := s.flushIdx + 1,
             warned := s.warned + (if cfg.flushOk s.flushIdx then 0 else 1),
             conn := false,
             batches_sent := 0 }
  else s

/-- Inter-batch pacing (lines 171-179): if rows remain, sample a pause from
the configured range (`none` models the panic of `random_range` on an
empty range). -/
def pauseStep (cfg : SenderCfg) (s : RunState) : Option RunState :=
  if s.rows_sent < cfg.rows_to_send then
    if cfg.send_settings.batch_pause.2 < cfg.send_settings.batch_pause.1 then
      none
    else
      some { s with gen := { s.gen with rng :=
        (s.gen.rng.rangeIncl cfg.send_settings.batch_pause.1
          cfg.send_settings.batch_pause.2).2 } }
  else some s

/-- The state after a successful per-batch flush (lines 142-169): bump the
flush count, account the batch, run the keepalive cycling. -/
def postFlushState (cfg : SenderCfg) (actual : Nat) (s3 : RunState) :
    RunState :=
  keepaliveStep cfg
    (accountBatch actual { s3 with flushIdx := s3.flushIdx + 1 })

/-- The per-batch flush of `send_batch` (lines 254-257) and the rest of the
loop body: on flush success, account and keepalive-cycle, then pace; on
flush failure, abort the sender with the error. -/
def flushAndCont (cfg : SenderCfg) (actual : Nat) (s3 : RunState) : IterOut :=
  if cfg.flushOk s3.flushIdx then
    match pauseStep cfg (postFlushState cfg actual s3) with
    | none => .done .panicked (postFlushState cfg actual s3)
    | some s5 => .cont s5
  else
    .done .flushBatchError
      { s3 with flushIdx := s3.flushIdx + 1, batchFlushFailed := true }

/-- `send_batch` (lines 203-259) within the loop: build `actual` rows into
the buffer (a `none` is the `unreachable!` panic, whose buffered rows are
dropped with the unwinding thread), then flush and continue. -/
def batchStep (cfg : SenderCfg) (actual : Nat) (s2 : RunState) : IterOut :=
  match sendRows cfg.table_name cfg.symbol_columns cfg.field_columns
    actual s2.cursor s2.gen with
  | none => .done .panicked s2
  | some rr =>
    flushAndCont cfg actual
      { s2 with cursor := rr.2.1, gen := rr.2.2, trace := s2.trace ++ rr.1 }

/-- One iteration of the `while rows_sent < rows_to_send` loop (lines
119-180): lazily connect; sample a batch size from `[min, max]` (a panic
on an empty range) and clip it to the remaining quota; then run the batch
via `batchStep`. -/
def runIter (cfg : SenderCfg) (s : RunState) : IterOut :=
  match connectStep cfg s with
  | none => .done .connectError { s with connIdx := s.connIdx + 1 }
  | some s1 =>
    if cfg.send_settings.batch_size.2 < cfg.send_settings.batch_size.1 then
      .done .panicked s1
    else
      batchStep cfg
        (min (s1.gen.rng.rangeIncl cfg.send_settings.batch_size.1
            cfg.send_settings.batch_size.2).1
          (cfg.rows_to_send - s1.rows_sent))
        { s1 with gen :=
            (s1.gen.withRng
              (s1.gen.rng.rangeIncl cfg.send_settings.batch_size.1
                cfg.send_settings.batch_size.2).2) }

/-- `TableSender::run` as a fuel-indexed execution: iterate the loop while
the quota is not exhausted, then flush any open connection (lines 182-187)
and return.  `none` means the fuel ran out before the run returned. -/
def runFuel (cfg : SenderCfg) : Nat → RunState → Option (RunResult × RunState)
  | 0, _ => none
  | fuel + 1, s =>
    if s.rows_sent < cfg.rows_to_send then
      match runIter cfg s with
      | .done r s' => some (r, s')
      | .cont s' => runFuel cfg fuel s'
    else
      if s.conn then
        if cfg.flushOk s.flushIdx then
          some (.ok, { s with flushIdx := s.flushIdx + 1 })
        else
          some (.flushFinalError,
            { s with flushIdx := s.flushIdx + 1, finalFlushFailed := true })
      else some (.ok, s)

/-- The initial state of `TableSender::run` (lines 105-117): the cursor is
the current wall clock (`startNanos`) plus a random offset in `[0, 1s)`, and
the data generator is created with that cursor as its base timestamp. -/
def initRunState (cfg : SenderCfg) (startNanos : Int) : RunState :=
  let odraw := (Rng.mk cfg.stream 0).rangeExcl 0 1000000000
  let cursor : Int := startNanos + (odraw.1 : Int)
  { rows_sent := 0, batches_sent := 0, conn := false, connIdx := 0,
    flushIdx := 0, counter := 0, warned := 0, batchFlushFailed := false,
    finalFlushFailed := false, batchSizes := [], trace := [],
    cursor := cursor, gen := DataGenerator.new cursor odraw.2 }

/-! ### Concrete executions for the scenario parts of the claims -/

/-- A 5-row quota with fixed 1-row batches whose second per-batch flush
fails (keepalive high enough to never trigger). -/
def scenarioFailCfg : SenderCfg :=
  { table_name := "t", symbol_columns := [], field_columns := [],
    rows_to_send := 5,
    send_settings :=
      { batch_pause := (0, 0), batch_size := (1, 1), parallel_senders := 1,
        tot_rows := 5, batches_connection_keepalive := 100 },
    connectOk := fun _ => true, flushOk := fun i => i == 0,
    stream := fun _ => 0 }

/-- A 25-row quota with fixed 10-row batches, all flushes succeeding. -/
def scenario25Cfg : SenderCfg :=
  { table_name := "t", symbol_columns := [], field_columns := [],
    rows_to_send := 25,
    send_settings :=
      { batch_pause := (0, 0), batch_size := (10, 10), parallel_senders := 1,
        tot_rows := 25, batches_connection_keepalive := 1000 },
    connectOk := fun _ => true, flushOk := fun _ => true,
    stream := fun _ => 0 }

/-- A 2-row quota with 1-row batches and keepalive threshold 1: every
odd-indexed flush — which is always the keepalive-disconnect flush — fails,
every per-batch flush succeeds. -/
def keepaliveFailCfg : SenderCfg :=
  { table_name := "t", symbol_columns := [], field_columns := [],
    rows_to_send := 2,
    send_settings :=
      { batch_pause := (0, 0), batch_size := (1, 1), parallel_senders := 1,
        tot_rows := 2, batches_connection_keepalive := 1 },
    connectOk := fun _ => true, flushOk := fun i => i % 2 == 0,
    stream := fun _ => 0 }

/-- A 1-row quota with the (degenerate but configurable) batch-size range
`(0, 0)`: every sampled batch is empty, so the loop never makes progress. -/
def zeroBatchCfg : SenderCfg :=
  { table_name := "t", symbol_columns := [], field_columns := [],
    rows_to_send := 1,
    send_settings :=
      { batch_pause := (0, 0), batch_size := (0, 0), parallel_senders := 1,
        tot_rows := 1, batches_connection_keepalive := 1000 },
    connectOk := fun _ => true, flushOk := fun _ => true,
    stream := fun _ => 0 }

/-- The run never returns, whatever the fuel: the loop of
`TableSender::run` does not terminate from this configuration and state. -/
def runNeverReturns (cfg : SenderCfg) (s : RunState) : Prop :=
  ∀ fuel, runFuel cfg fuel s = none

/-- The (result, final state) of the `scenarioFailCfg` execution. -/
def scenarioFailOut : RunResult × RunState :=
  (runFuel scenarioFailCfg 12 (initRunState scenarioFailCfg 0)).getD
    (.ok, initRunState scenarioFailCfg 0)

/-- The (result, final state) of the `scenario25Cfg` execution. -/
def scenario25Out : RunResult × RunState :=
  (runFuel scenario25Cfg 30 (initRunState scenario25Cfg 0)).getD
    (.panicked, initRunState scenario25Cfg 0)

/-! ### Section: supporting lemmas and claim theorems -/

lemma sum_range_ite_lt (k : Nat) :
    ∀ n, (∑ i ∈ Finset.range n, if i < k then 1 else 0) = min k n := by
  intro n
  induction n with
  | zero => simp
  | succ m ih =>
    rw [Finset.sum_range_succ, ih]
    by_cases h : m < k <;> simp [h] <;> omega

lemma rows_for_sender_sum (total_rows parallel_senders : Nat)
    (h : 1 ≤ parallel_senders) :
    (∑ i ∈ Finset.range parallel_senders,
      rows_for_sender total_rows parallel_senders i) = total_rows := by
  unfold rows_for_sender
  rw [Finset.sum_add_distrib, Finset.sum_const, Finset.card_range,
    smul_eq_mul, sum_range_ite_lt]
  have hmod : total_rows % parallel_senders < parallel_senders :=
    Nat.mod_lt _ (by omega)
  have hdm := Nat.div_add_mod total_rows parallel_senders
  rw [min_eq_left (le_of_lt hmod)]
  omega

lemma rows_for_sender_spread (total_rows parallel_senders i j : Nat) :
    rows_for_sender total_rows parallel_senders i ≤
      rows_for_sender total_rows parallel_senders j + 1 := by
  unfold rows_for_sender
  split <;> split <;> omega

lemma validateColumns_ok (v : NameValidator) :
    ∀ cols : List (String × ColType),
      (∀ c ∈ cols, v.columnOk c.1 = true) → validateColumns v cols = .ok () := by
  intro cols h
  induction cols with
  | nil => rfl
  | cons c rest ih =>
    have hc := h c (by simp)
    simp only [validateColumns, hc, if_true]
    exact ih (fun x hx => h x (by simp [hx]))

lemma validateColumns_error (v : NameValidator) :
    ∀ (cols : List (String × ColType)) (e : NameError),
      validateColumns v cols = .error e →
      ∃ n, e = .invalidColumn n ∧ v.columnOk n = false ∧ n ∈ cols.map Prod.fst := by
  intro cols
  induction cols with
  | nil => intro e h; simp [validateColumns] at h
  | cons c rest ih =>
    intro e h
    by_cases hc : v.columnOk c.1 = true
    · simp only [validateColumns, hc, if_true] at h
      obtain ⟨n, hn⟩ := ih e h
      exact ⟨n, hn.1, hn.2.1, by simp [hn.2.2]⟩
    · have hc' : v.columnOk c.1 = false := by simpa using hc
      simp only [validateColumns, hc', Bool.false_eq_true, if_false,
        Except.error.injEq] at h
      exact ⟨c.1, h.symm, hc', by simp⟩

lemma validate_names_error_offender (v : NameValidator) (tableName : String)
    (tc : Table) (e : NameError) (h : validate_names v tableName tc = .error e) :
    namesOffender v tableName tc e := by
  unfold validate_names at h
  by_cases ht : v.tableOk tableName = true
  · simp only [ht, if_true] at h
    cases hcols : validateColumns v tc.schema with
    | error e' =>
      rw [hcols] at h
      obtain ⟨n, hn, hv, hm⟩ := validateColumns_error v tc.schema e' (by exact hcols)
      cases h
      subst hn
      exact ⟨hv, hm⟩
    | ok u =>
      cases u
      rw [hcols] at h
      by_cases hd : v.columnOk tc.designated_ts = true
      · simp [hd] at h
      · simp only [hd, Bool.false_eq_true, if_false] at h
        cases h
        exact ⟨rfl, by simpa using hd⟩
  · simp only [ht, Bool.false_eq_true, if_false] at h
    cases h
    exact ⟨rfl, by simpa using ht⟩

/-- **C1.** Row distribution of `blast_table`: for every `total_rows` and
`sender_count ≥ 1`, each sender's quota is `base + (1 if its id < extra
else 0)` with `base = total_rows / sender_count` and
`extra = total_rows % sender_count`; the quotas sum to `total_rows`
exactly; the spread between any two quotas is at most 1; and
`tot_rows = 100, parallel_senders = 3` yields the quotas `[34, 33, 33]`. -/
theorem distribute_partitions_exactly (total_rows sender_count : Nat)
    (h : 1 ≤ sender_count) :
    (∀ i, rows_for_sender total_rows sender_count i =
        total_rows / sender_count +
          if i < total_rows % sender_count then 1 else 0) ∧
    (∑ i ∈ Finset.range sender_count, rows_for_sender total_rows sender_count i)
        = total_rows ∧
    (∀ i j, rows_for_sender total_rows sender_count i ≤
        rows_for_sender total_rows sender_count j + 1) ∧
    senderQuotas 100 3 = [34, 33, 33] := by
  refine ⟨fun i => rfl, rows_for_sender_sum total_rows sender_count h,
    fun i j => rows_for_sender_spread total_rows sender_count i j, ?_⟩
  rfl

/-- Witness for C1 at `total_rows = 100`, `sender_count = 3`. -/
theorem distribute_partitions_exactly_witness :
    1 ≤ 3 ∧
    ((∑ i ∈ Finset.range 3, rows_for_sender 100 3 i) = 100 ∧
      senderQuotas 100 3 = [34, 33, 33]) := by
  refine ⟨by decide, ?_⟩
  have h := distribute_partitions_exactly 100 3 (by decide)
  exact ⟨h.2.1, h.2.2.2⟩

/-- **C6.** If identifier validation fails for a table configuration, then
`blast_table` fails with that validation error — which names the offending
identifier — and its effect trace is empty: no admin connection, no SQL
execution, and no sender (hence no ingestion connection) is ever attempted. -/
theorem validation_failure_precedes_connections (v : NameValidator)
    (adminConnectOk : Bool) (execOk : String → Bool) (tableName : String)
    (tc : Table) (e : NameError)
    (h : validate_names v tableName tc = .error e) :
    blast_table_prologue v adminConnectOk execOk tableName tc =
        (.error (.invalidName e), []) ∧
      namesOffender v tableName tc e := by
  refine ⟨?_, validate_names_error_offender v tableName tc e h⟩
  unfold blast_table_prologue
  rw [h]

/-- Witness for C6: a table whose only column name, `bad col`, is rejected
by the validator. -/
theorem validation_failure_precedes_connections_witness :
    validate_names ⟨fun _ => true, fun s => !(s == "bad col")⟩ "t"
        ⟨[("bad col", ColType.Long)], "bad col",
          ⟨(0, 0), (1, 1), 1, 1, 1⟩⟩ = .error (.invalidColumn "bad col") ∧
    blast_table_prologue ⟨fun _ => true, fun s => !(s == "bad col")⟩ true
        (fun _ => true) "t"
        ⟨[("bad col", ColType.Long)], "bad col", ⟨(0, 0), (1, 1), 1, 1, 1⟩⟩ =
      (.error (.invalidName (.invalidColumn "bad col")), []) := by
  refine ⟨by rfl, ?_⟩
  exact (validation_failure_precedes_connections _ true (fun _ => true) "t" _
    (.invalidColumn "bad col") (by rfl)).1

lemma emitSymbols_spec (cols : List String) :
    ∀ g : DataGenerator,
      (∀ e ∈ (emitSymbols cols g).1, e.isSymbolWrite = true) ∧
      (∀ e ∈ (emitSymbols cols g).1, e.isAtWrite = false) ∧
      (emitSymbols cols g).2.symbols = g.symbols ∧
      (emitSymbols cols g).2.base_timestamp = g.base_timestamp := by
  induction cols with
  | nil => intro g; simp [emitSymbols]
  | cons c rest ih =>
    intro g
    obtain ⟨h1, h2, h3, h4⟩ := ih (generate_symbol g).2
    refine ⟨?_, ?_, ?_, ?_⟩
    · intro e he
      simp only [emitSymbols, List.mem_cons] at he
      rcases he with rfl | he
      · rfl
      · exact h1 e he
    · intro e he
      simp only [emitSymbols, List.mem_cons] at he
      rcases he with rfl | he
      · rfl
      · exact h2 e he
    · simpa [emitSymbols] using h3
    · simpa [emitSymbols] using h4

lemma emitFields_spec (cols : List (String × ColType)) :
    ∀ (g : DataGenerator) (evs : List IlpEvent) (g' : DataGenerator),
      emitFields cols g = some (evs, g') →
      List.Forall₂ (fun c e => fieldEncodes c e = true) cols evs ∧
      (∀ e ∈ evs, e.isFieldWrite = true) ∧
      (∀ e ∈ evs, e.isAtWrite = false) ∧
      g'.symbols = g.symbols ∧ g'.base_timestamp = g.base_timestamp := by
  induction cols with
  | nil =>
    intro g evs g' h
    simp only [emitFields, Option.some.injEq, Prod.mk.injEq] at h
    obtain ⟨rfl, rfl⟩ := h
    exact ⟨List.Forall₂.nil, by simp, by simp, rfl, rfl⟩
  | cons c rest ih =>
    intro g evs g' h
    obtain ⟨cn, ct⟩ := c
    cases ct <;> simp only [emitFields] at h
    case Symbol => cases h
    case Long =>
      cases hrest : emitFields rest (generate_long g).2 with
      | none => rw [hrest] at h; cases h
      | some p =>
        rw [hrest] at h
        simp only [Option.map_some', Option.some.injEq, Prod.mk.injEq] at h
        obtain ⟨rfl, rfl⟩ := h
        obtain ⟨f1, f2, f3, f4, f5⟩ := ih (generate_long g).2 p.1 p.2 (by rw [hrest])
        refine ⟨List.Forall₂.cons (by simp [fieldEncodes]) f1, ?_, ?_, f4, f5⟩
        · intro e he
          rcases List.mem_cons.mp he with rfl | he
          · rfl
          · exact f2 e he
        · intro e he
          rcases List.mem_cons.mp he with rfl | he
          · rfl
          · exact f3 e he
    case Double =>
      cases hrest : emitFields rest (generate_double g).2 with
      | none => rw [hrest] at h; cases h
      | some p =>
        rw [hrest] at h
        simp only [Option.map_some', Option.some.injEq, Prod.mk.injEq] at h
        obtain ⟨rfl, rfl⟩ := h
        obtain ⟨f1, f2, f3, f4, f5⟩ := ih (generate_double g).2 p.1 p.2 (by rw [hrest])
        refine ⟨List.Forall₂.cons (by simp [fieldEncodes]) f1, ?_, ?_, f4, f5⟩
        · intro e he
          rcases List.mem_cons.mp he with rfl | he
          · rfl
          · exact f2 e he
        · intro e he
          rcases List.mem_cons.mp he with rfl | he
          · rfl
          · exact f3 e he
    case Timestamp =>
      cases hrest : emitFields rest (generate_timestamp g).2 with
      | none => rw [hrest] at h; cases h
      | some p =>
        rw [hrest] at h
        simp only [Option.map_some', Option.some.injEq, Prod.mk.injEq] at h
        obtain ⟨rfl, rfl⟩ := h
        obtain ⟨f1, f2, f3, f4, f5⟩ := ih (generate_timestamp g).2 p.1 p.2 (by rw [hrest])
        refine ⟨List.Forall₂.cons (by simp [fieldEncodes]) f1, ?_, ?_, f4, f5⟩
        · intro e he
          rcases List.mem_cons.mp he with rfl | he
          · rfl
          · exact f2 e he
        · intro e he
          rcases List.mem_cons.mp he with rfl | he
          · rfl
          · exact f3 e he

/-- **C2.** Every row built by `send_batch` has the shape: `table` marker,
then all symbol-column writes, then all field-column writes — pointwise in
the per-type encoding (Long via `column_i64`, Double via `column_f64`,
Timestamp via `column_ts`) — and finally the designated timestamp, set
exactly once per row, after all other columns, via `buffer.at`. -/
theorem row_emission_order (tableName : String) (symbolColumns : List String)
    (fieldColumns : List (String × ColType)) (cursor : Int) (g : DataGenerator)
    (evs : List IlpEvent) (cursor' : Int) (g' : DataGenerator)
    (h : buildRow tableName symbolColumns fieldColumns cursor g =
      some (evs, cursor', g')) :
    ∃ symEvs fieldEvs,
      evs = .table tableName :: (symEvs ++ fieldEvs ++ [.atTs cursor']) ∧
      (∀ e ∈ symEvs, e.isSymbolWrite = true) ∧
      List.Forall₂ (fun c e => fieldEncodes c e = true) fieldColumns fieldEvs ∧
      evs.countP IlpEvent.isAtWrite = 1 ∧
      evs.getLast? = some (.atTs cursor') := by
  simp only [buildRow] at h
  set g0 : DataGenerator :=
    { g with rng := (g.rng.rangeExcl 1000000 10000000).2 } with hg0
  set c' : Int := cursor + ((g.rng.rangeExcl 1000000 10000000).1 : Int) with hc'
  cases hf : emitFields fieldColumns (emitSymbols symbolColumns g0).2 with
  | none => rw [hf] at h; cases h
  | some p =>
    rw [hf] at h
    simp only [Option.map_some', Option.some.injEq, Prod.mk.injEq] at h
    obtain ⟨hevs, hcur, hg⟩ := h
    obtain ⟨s1, s2, _, _⟩ := emitSymbols_spec symbolColumns g0
    obtain ⟨f1, f2, f3, _, _⟩ := emitFields_spec fieldColumns _ p.1 p.2
      (by rw [hf])
    subst hcur
    refine ⟨(emitSymbols symbolColumns g0).1, p.1, hevs.symm, s1, f1, ?_, ?_⟩
    · rw [← hevs]
      simp only [List.countP_cons, List.countP_append, List.countP_nil]
      rw [List.countP_eq_zero.mpr (fun e he => by simp [s2 e he]),
        List.countP_eq_zero.mpr (fun e he => by simp [f3 e he])]
      simp [IlpEvent.isAtWrite]
    · rw [← hevs]
      rw [show IlpEvent.table tableName ::
          ((emitSymbols symbolColumns g0).1 ++ p.1 ++ [IlpEvent.atTs c']) =
          (IlpEvent.table tableName ::
            ((emitSymbols symbolColumns g0).1 ++ p.1)) ++ [IlpEvent.atTs c']
        by simp]
      exact List.getLast?_concat _

/-- Witness for C2: a one-symbol, one-long-field row. -/
theorem row_emission_order_witness :
    ∃ evs cursor' g',
      buildRow "t" ["s"] [("f", ColType.Long)] 0
          ⟨["a"], 0, ⟨fun _ => 0, 0⟩⟩ = some (evs, cursor', g') ∧
      ∃ symEvs fieldEvs,
        evs = .table "t" :: (symEvs ++ fieldEvs ++ [.atTs cursor']) ∧
        (∀ e ∈ symEvs, e.isSymbolWrite = true) ∧
        List.Forall₂ (fun c e => fieldEncodes c e = true)
          [("f", ColType.Long)] fieldEvs ∧
        evs.countP IlpEvent.isAtWrite = 1 ∧
        evs.getLast? = some (.atTs cursor') := by
  refine ⟨[.table "t", .symbol "s" "a", .columnI64 "f" 0, .atTs 1000000],
    1000000, ⟨["a"], 0, ⟨fun _ => 0, 3⟩⟩, by rfl, ?_⟩
  exact row_emission_order "t" ["s"] [("f", ColType.Long)] 0
    ⟨["a"], 0, ⟨fun _ => 0, 0⟩⟩ _ _ _ (by rfl)

lemma mkSymbolPool_length : mkSymbolPool.length = 4000 := by
  simp [mkSymbolPool, SYMBOL_POOL_SIZE]

lemma symbolVariant_template (i : Nat) : templateForm (symbolVariant i) := by
  have h5 : i % 5 = 0 ∨ i % 5 = 1 ∨ i % 5 = 2 ∨ i % 5 = 3 ∨ i % 5 = 4 := by
    omega
  unfold symbolVariant
  rcases h5 with h | h | h | h | h <;> rw [h] <;> unfold templateForm
  · exact Or.inl ⟨i % 100, Nat.mod_lt i (by omega), rfl⟩
  · exact Or.inr (Or.inl ⟨i % 50, Nat.mod_lt i (by omega), rfl⟩)
  · exact Or.inr (Or.inr (Or.inl ⟨i % 4, Nat.mod_lt i (by omega), rfl⟩))
  · exact Or.inr (Or.inr (Or.inr (Or.inl ⟨i % 3, Nat.mod_lt i (by omega), rfl⟩)))
  · exact Or.inr (Or.inr (Or.inr (Or.inr
      ⟨i % 200, Nat.mod_lt i (by omega), rfl⟩)))

lemma generate_symbol_mem (g : DataGenerator) (h : 0 < g.symbols.length) :
    (generate_symbol g).1 ∈ g.symbols := by
  simp only [generate_symbol, Rng.rangeExcl, Rng.next, Nat.zero_add,
    Nat.sub_zero]
  have hidx : g.rng.stream g.rng.pos % g.symbols.length < g.symbols.length :=
    Nat.mod_lt _ h
  rw [List.getD_eq_getElem _ _ hidx]
  exact List.getElem_mem hidx

set_option maxRecDepth 100000 in
/-- **C9.** The symbol pool: constructed once at generator creation, it has
exactly `SYMBOL_POOL_SIZE = 4000` entries, each matching one of the five
human-readable host/service/region/env/app templates; `generate_symbol`
always returns an element of the pool and never modifies it. -/
theorem symbol_pool_spec :
    mkSymbolPool.length = 4000 ∧
    SYMBOL_POOL_SIZE = 4000 ∧
    (∀ (base : Int) (rng : Rng),
      (DataGenerator.new base rng).symbols = mkSymbolPool) ∧
    (∀ s ∈ mkSymbolPool, templateForm s) ∧
    (∀ g : DataGenerator, 0 < g.symbols.length →
      (generate_symbol g).1 ∈ g.symbols) ∧
    (∀ g : DataGenerator, (generate_symbol g).2.symbols = g.symbols) := by
  refine ⟨mkSymbolPool_length, rfl, fun _ _ => rfl, ?_,
    fun g h => generate_symbol_mem g h, fun g => rfl⟩
  intro s hs
  obtain ⟨i, _, rfl⟩ := List.mem_map.mp hs
  exact symbolVariant_template i

/-- Witness for C9: pool entry 0 matches a template, and a draw from a
concrete generator lands in its pool. -/
theorem symbol_pool_spec_witness :
    symbolVariant 0 ∈ mkSymbolPool ∧
    templateForm (symbolVariant 0) ∧
    0 < (DataGenerator.mk ["a"] 0 ⟨fun _ => 0, 0⟩).symbols.length ∧
    (generate_symbol (DataGenerator.mk ["a"] 0 ⟨fun _ => 0, 0⟩)).1 ∈
      (DataGenerator.mk ["a"] 0 ⟨fun _ => 0, 0⟩).symbols := by
  have hmem : symbolVariant 0 ∈ mkSymbolPool :=
    List.mem_map.mpr ⟨0, List.mem_range.mpr (by unfold SYMBOL_POOL_SIZE; omega),
      rfl⟩
  exact ⟨hmem, symbol_pool_spec.2.2.2.1 _ hmem, by simp,
    symbol_pool_spec.2.2.2.2.1 _ (by simp)⟩

lemma classifyColumns_fields_spec (schema : List (String × ColType))
    (dts : String) :
    ∀ p ∈ (classifyColumns schema dts).2, p.2 ≠ ColType.Symbol ∧ p.1 ≠ dts := by
  induction schema with
  | nil => intro p hp; simp [classifyColumns] at hp
  | cons c rest ih =>
    obtain ⟨n, t⟩ := c
    intro p hp
    by_cases hn : n = dts
    · simp only [classifyColumns, hn, if_true] at hp
      exact ih p hp
    · cases t with
      | Symbol =>
        simp only [classifyColumns, hn, if_false] at hp
        exact ih p hp
      | Timestamp =>
        simp only [classifyColumns, hn, if_false] at hp
        rcases List.mem_cons.mp hp with rfl | hp
        · exact ⟨by simp, hn⟩
        · exact ih p hp
      | Long =>
        simp only [classifyColumns, hn, if_false] at hp
        rcases List.mem_cons.mp hp with rfl | hp
        · exact ⟨by simp, hn⟩
        · exact ih p hp
      | Double =>
        simp only [classifyColumns, hn, if_false] at hp
        rcases List.mem_cons.mp hp with rfl | hp
        · exact ⟨by simp, hn⟩
        · exact ih p hp

lemma classifyColumns_symbols_spec (schema : List (String × ColType))
    (dts : String) :
    ∀ n ∈ (classifyColumns schema dts).1, n ≠ dts := by
  induction schema with
  | nil => intro n hn; simp [classifyColumns] at hn
  | cons c rest ih =>
    obtain ⟨m, t⟩ := c
    intro n hn
    by_cases hm : m = dts
    · simp only [classifyColumns, hm, if_true] at hn
      exact ih n hn
    · cases t with
      | Symbol =>
        simp only [classifyColumns, hm, if_false] at hn
        rcases List.mem_cons.mp hn with rfl | hn
        · exact hm
        · exact ih n hn
      | Timestamp =>
        simp only [classifyColumns, hm, if_false] at hn
        exact ih n hn
      | Long =>
        simp only [classifyColumns, hm, if_false] at hn
        exact ih n hn
      | Double =>
        simp only [classifyColumns, hm, if_false] at hn
        exact ih n hn

lemma classifyColumns_symbol_mem (schema : List (String × ColType))
    (dts : String) :
    ∀ n, (n, ColType.Symbol) ∈ schema → n ≠ dts →
      n ∈ (classifyColumns schema dts).1 := by
  induction schema with
  | nil => intro n hmem; simp at hmem
  | cons c rest ih =>
    obtain ⟨m, t⟩ := c
    intro n hmem hn
    rcases List.mem_cons.mp hmem with heq | hmem'
    · have h1 : n = m := congrArg Prod.fst heq
      have h2 : ColType.Symbol = t := congrArg Prod.snd heq
      subst h1
      subst h2
      simp only [classifyColumns, hn, if_false]
      exact List.mem_cons_self _ _
    · by_cases hm : m = dts
      · simp only [classifyColumns, hm, if_true]
        exact ih n hmem' hn
      · cases t with
        | Symbol =>
          simp only [classifyColumns, hm, if_false]
          exact List.mem_cons_of_mem _ (ih n hmem' hn)
        | Timestamp =>
          simp only [classifyColumns, hm, if_false]
          exact ih n hmem' hn
        | Long =>
          simp only [classifyColumns, hm, if_false]
          exact ih n hmem' hn
        | Double =>
          simp only [classifyColumns, hm, if_false]
          exact ih n hmem' hn

lemma emitFields_no_symbol_isSome (cols : List (String × ColType)) :
    ∀ g : DataGenerator, (∀ p ∈ cols, p.2 ≠ ColType.Symbol) →
      (emitFields cols g).isSome := by
  induction cols with
  | nil => intro g _; simp [emitFields]
  | cons c rest ih =>
    intro g hno
    obtain ⟨cn, ct⟩ := c
    cases ct
    case Symbol => exact absurd rfl (hno (cn, .Symbol) (by simp))
    case Long =>
      obtain ⟨p, hp⟩ := Option.isSome_iff_exists.mp
        (ih (generate_long g).2 (fun q hq => hno q (by simp [hq])))
      simp [emitFields, hp]
    case Double =>
      obtain ⟨p, hp⟩ := Option.isSome_iff_exists.mp
        (ih (generate_double g).2 (fun q hq => hno q (by simp [hq])))
      simp [emitFields, hp]
    case Timestamp =>
      obtain ⟨p, hp⟩ := Option.isSome_iff_exists.mp
        (ih (generate_timestamp g).2 (fun q hq => hno q (by simp [hq])))
      simp [emitFields, hp]

lemma buildRow_no_symbol_fields_isSome (tableName : String)
    (symbolColumns : List String) (fieldColumns : List (String × ColType))
    (cursor : Int) (g : DataGenerator)
    (hno : ∀ p ∈ fieldColumns, p.2 ≠ ColType.Symbol) :
    (buildRow tableName symbolColumns fieldColumns cursor g).isSome := by
  simp only [buildRow]
  obtain ⟨p, hp⟩ := Option.isSome_iff_exists.mp
    (emitFields_no_symbol_isSome fieldColumns
      (emitSymbols symbolColumns
        { g with rng := (g.rng.rangeExcl 1000000 10000000).2 }).2 hno)
  simp [hp]

/-- **C10.** The classifier never places a Symbol-typed column into
`field_columns` (Symbol columns go to `symbol_columns`; the
designated-timestamp column is excluded from both lists), so building a row
from classified columns can never reach the `unreachable!` arm of
`send_batch`'s field loop (`buildRow` never returns `none`). -/
theorem classifier_keeps_symbols_out_of_fields
    (schema : List (String × ColType)) (dts : String) :
    (∀ p ∈ (classifyColumns schema dts).2,
      p.2 ≠ ColType.Symbol ∧ p.1 ≠ dts) ∧
    (∀ n ∈ (classifyColumns schema dts).1, n ≠ dts) ∧
    (∀ n, (n, ColType.Symbol) ∈ schema → n ≠ dts →
      n ∈ (classifyColumns schema dts).1) ∧
    (∀ (tableName : String) (cursor : Int) (g : DataGenerator),
      buildRow tableName (classifyColumns schema dts).1
        (classifyColumns schema dts).2 cursor g ≠ none) := by
  refine ⟨classifyColumns_fields_spec schema dts,
    classifyColumns_symbols_spec schema dts,
    classifyColumns_symbol_mem schema dts, ?_⟩
  intro tableName cursor g
  exact Option.isSome_iff_ne_none.mp
    (buildRow_no_symbol_fields_isSome tableName _ _ cursor g
      (fun p hp => (classifyColumns_fields_spec schema dts p hp).1))

/-- Witness for C10 on the schema
`[("s", Symbol), ("v", Long), ("ts", Timestamp)]` with designated
timestamp `ts`. -/
theorem classifier_keeps_symbols_out_of_fields_witness :
    (("v", ColType.Long) ∈
        (classifyColumns [("s", ColType.Symbol), ("v", ColType.Long),
          ("ts", ColType.Timestamp)] "ts").2 ∧
      ColType.Long ≠ ColType.Symbol ∧ "v" ≠ "ts") ∧
    (("s", ColType.Symbol) ∈
        [("s", ColType.Symbol), ("v", ColType.Long),
          ("ts", ColType.Timestamp)] ∧ "s" ≠ "ts" ∧
      "s" ∈ (classifyColumns [("s", ColType.Symbol), ("v", ColType.Long),
        ("ts", ColType.Timestamp)] "ts").1) ∧
    buildRow "t"
        (classifyColumns [("s", ColType.Symbol), ("v", ColType.Long),
          ("ts", ColType.Timestamp)] "ts").1
        (classifyColumns [("s", ColType.Symbol), ("v", ColType.Long),
          ("ts", ColType.Timestamp)] "ts").2 0
        ⟨["a"], 0, ⟨fun _ => 0, 0⟩⟩ ≠ none := by
  have h := classifier_keeps_symbols_out_of_fields
    [("s", ColType.Symbol), ("v", ColType.Long), ("ts", ColType.Timestamp)] "ts"
  refine ⟨⟨by decide, ?_, ?_⟩, ⟨by decide, ?_, ?_⟩, ?_⟩
  · exact (h.1 ("v", ColType.Long) (by decide)).1
  · exact (h.1 ("v", ColType.Long) (by decide)).2
  · exact by decide
  · exact h.2.2.1 "s" (by decide) (by decide)
  · exact h.2.2.2 "t" 0 ⟨["a"], 0, ⟨fun _ => 0, 0⟩⟩

@[simp] lemma DataGenerator_withRng_symbols (g : DataGenerator) (r : Rng) :
    (g.withRng r).symbols = g.symbols := rfl

@[simp] lemma DataGenerator_withRng_base (g : DataGenerator) (r : Rng) :
    (g.withRng r).base_timestamp = g.base_timestamp := rfl

lemma atValues_append (a b : List IlpEvent) :
    atValues (a ++ b) = atValues a ++ atValues b :=
  List.filterMap_append a b _

lemma atValues_nil_of_no_at (l : List IlpEvent)
    (h : ∀ e ∈ l, e.isAtWrite = false) : atValues l = [] := by
  induction l with
  | nil => rfl
  | cons e rest ih =>
    have he := h e (by simp)
    cases e with
    | atTs v => simp [IlpEvent.isAtWrite] at he
    | table n =>
      simp only [atValues, List.filterMap_cons]
      exact ih (fun x hx => h x (by simp [hx]))
    | symbol c v =>
      simp only [atValues, List.filterMap_cons]
      exact ih (fun x hx => h x (by simp [hx]))
    | columnI64 c v =>
      simp only [atValues, List.filterMap_cons]
      exact ih (fun x hx => h x (by simp [hx]))
    | columnF64 c v =>
      simp only [atValues, List.filterMap_cons]
      exact ih (fun x hx => h x (by simp [hx]))
    | columnTs c v =>
      simp only [atValues, List.filterMap_cons]
      exact ih (fun x hx => h x (by simp [hx]))

lemma buildRow_facts (tn : String) (sc : List String)
    (fc : List (String × ColType)) (cur : Int) (g : DataGenerator)
    (evs : List IlpEvent) (cur' : Int) (g' : DataGenerator)
    (h : buildRow tn sc fc cur g = some (evs, cur', g')) :
    cur + 1000000 ≤ cur' ∧ cur' < cur + 10000000 ∧
    atValues evs = [cur'] ∧ g'.symbols = g.symbols := by
  simp only [buildRow] at h
  set g0 : DataGenerator :=
    { g with rng := (g.rng.rangeExcl 1000000 10000000).2 } with hg0
  cases hf : emitFields fc (emitSymbols sc g0).2 with
  | none => rw [hf] at h; cases h
  | some p =>
    rw [hf] at h
    simp only [Option.map_some', Option.some.injEq, Prod.mk.injEq] at h
    obtain ⟨hevs, hcur, hg⟩ := h
    obtain ⟨s1, s2, s3, _⟩ := emitSymbols_spec sc g0
    obtain ⟨f1, f2, f3, f4, _⟩ := emitFields_spec fc _ p.1 p.2 (by rw [hf])
    have hrange : 1000000 ≤ (g.rng.rangeExcl 1000000 10000000).1 ∧
        (g.rng.rangeExcl 1000000 10000000).1 < 10000000 := by
      simp only [Rng.rangeExcl, Rng.next]
      omega
    refine ⟨?_, ?_, ?_, ?_⟩
    · rw [← hcur]; omega
    · rw [← hcur]; omega
    · rw [← hevs, ← hcur]
      simp only [atValues, List.filterMap_cons, List.filterMap_append]
      rw [show (List.filterMap _ (emitSymbols sc g0).1 = ([] : List Int))
          from atValues_nil_of_no_at _ s2,
        show (List.filterMap _ p.1 = ([] : List Int))
          from atValues_nil_of_no_at _ f3]
      rfl
    · rw [← hg]
      rw [f4, s3]

lemma sendRows_facts (tn : String) (sc : List String)
    (fc : List (String × ColType)) :
    ∀ (n : Nat) (cur : Int) (g : DataGenerator) (evs : List IlpEvent)
      (cur' : Int) (g' : DataGenerator),
      sendRows tn sc fc n cur g = some (evs, cur', g') →
      cur ≤ cur' ∧ g'.symbols = g.symbols ∧
      List.Pairwise (· ≤ ·) (atValues evs) ∧
      (∀ v ∈ atValues evs, cur < v ∧ v ≤ cur') := by
  intro n
  induction n with
  | zero =>
    intro cur g evs cur' g' h
    simp only [sendRows, Option.some.injEq, Prod.mk.injEq] at h
    obtain ⟨rfl, rfl, rfl⟩ := h
    exact ⟨le_refl _, rfl, by simp [atValues], by simp [atValues]⟩
  | succ m ih =>
    intro cur g evs cur' g' h
    simp only [sendRows] at h
    cases hb : buildRow tn sc fc cur g with
    | none => rw [hb] at h; cases h
    | some p =>
      rw [hb] at h
      simp only [Option.some_bind] at h
      cases hs : sendRows tn sc fc m p.2.1 p.2.2 with
      | none => rw [hs] at h; cases h
      | some q =>
        rw [hs] at h
        simp only [Option.map_some', Option.some.injEq, Prod.mk.injEq] at h
        obtain ⟨hevs, hcur, hg⟩ := h
        obtain ⟨b1, b2, b3, b4⟩ := buildRow_facts tn sc fc cur g p.1 p.2.1 p.2.2
          (by rw [hb])
        obtain ⟨i1, i2, i3, i4⟩ := ih p.2.1 p.2.2 q.1 q.2.1 q.2.2 (by rw [hs])
        subst hcur hg
        refine ⟨by omega, by rw [i2, b4], ?_, ?_⟩
        · rw [← hevs, atValues_append, b3]
          refine List.Pairwise.cons ?_ i3
          intro v hv
          have := (i4 v hv).1
          omega
        · intro v hv
          rw [← hevs, atValues_append, b3] at hv
          rcases List.mem_cons.mp hv with rfl | hv
          · constructor
            · omega
            · exact i1
          · have := i4 v hv
            constructor
            · omega
            · exact this.2

lemma connectStep_facts (cfg : SenderCfg) (s : RunState) :
    ∀ s', connectStep cfg s = some s' →
      s'.rows_sent = s.rows_sent ∧ s'.counter = s.counter ∧
      s'.gen = s.gen ∧ s'.cursor = s.cursor ∧ s'.trace = s.trace ∧
      s'.flushIdx = s.flushIdx ∧ s'.batchFlushFailed = s.batchFlushFailed ∧
      s'.finalFlushFailed = s.finalFlushFailed ∧
      s'.batchSizes = s.batchSizes := by
  intro s' h
  unfold connectStep at h
  split at h
  · cases h
    exact ⟨rfl, rfl, rfl, rfl, rfl, rfl, rfl, rfl, rfl⟩
  · split at h
    · cases h
      exact ⟨rfl, rfl, rfl, rfl, rfl, rfl, rfl, rfl, rfl⟩
    · cases h

lemma keepaliveStep_facts (cfg : SenderCfg) (s : RunState) :
    (keepaliveStep cfg s).rows_sent = s.rows_sent ∧
    (keepaliveStep cfg s).counter = s.counter ∧
    (keepaliveStep cfg s).gen = s.gen ∧
    (keepaliveStep cfg s).cursor = s.cursor ∧
    (keepaliveStep cfg s).trace = s.trace ∧
    (keepaliveStep cfg s).batchFlushFailed = s.batchFlushFailed ∧
    (keepaliveStep cfg s).finalFlushFailed = s.finalFlushFailed ∧
    (keepaliveStep cfg s).batchSizes = s.batchSizes := by
  unfold keepaliveStep
  split
  · exact ⟨rfl, rfl, rfl, rfl, rfl, rfl, rfl, rfl⟩
  · exact ⟨rfl, rfl, rfl, rfl, rfl, rfl, rfl, rfl⟩

lemma pauseStep_facts (cfg : SenderCfg) (s : RunState) :
    ∀ s', pauseStep cfg s = some s' →
      s'.rows_sent = s.rows_sent ∧ s'.counter = s.counter ∧
      s'.gen.symbols = s.gen.symbols ∧ s'.cursor = s.cursor ∧
      s'.trace = s.trace ∧ s'.flushIdx = s.flushIdx ∧
      s'.batchFlushFailed = s.batchFlushFailed ∧
      s'.finalFlushFailed = s.finalFlushFailed ∧
      s'.batchSizes = s.batchSizes := by
  intro s' h
  unfold pauseStep at h
  split at h
  · split at h
    · cases h
    · cases h
      exact ⟨rfl, rfl, rfl, rfl, rfl, rfl, rfl, rfl, rfl⟩
  · cases h
    exact ⟨rfl, rfl, rfl, rfl, rfl, rfl, rfl, rfl, rfl⟩

@[simp] lemma accountBatch_rows (a : Nat) (s : RunState) :
    (accountBatch a s).rows_sent = s.rows_sent + a := rfl

@[simp] lemma accountBatch_counter (a : Nat) (s : RunState) :
    (accountBatch a s).counter = s.counter + a := rfl

@[simp] lemma accountBatch_gen (a : Nat) (s : RunState) :
    (accountBatch a s).gen = s.gen := rfl

@[simp] lemma accountBatch_cursor (a : Nat) (s : RunState) :
    (accountBatch a s).cursor = s.cursor := rfl

@[simp] lemma accountBatch_trace (a : Nat) (s : RunState) :
    (accountBatch a s).trace = s.trace := rfl

@[simp] lemma accountBatch_batchFlag (a : Nat) (s : RunState) :
    (accountBatch a s).batchFlushFailed = s.batchFlushFailed := rfl

@[simp] lemma accountBatch_finalFlag (a : Nat) (s : RunState) :
    (accountBatch a s).finalFlushFailed = s.finalFlushFailed := rfl

@[simp] lemma accountBatch_sizes (a : Nat) (s : RunState) :
    (accountBatch a s).batchSizes = s.batchSizes ++ [a] := rfl

@[simp] lemma keepaliveStep_rows (cfg : SenderCfg) (s : RunState) :
    (keepaliveStep cfg s).rows_sent = s.rows_sent := by
  unfold keepaliveStep; split <;> rfl

@[simp] lemma keepaliveStep_counter (cfg : SenderCfg) (s : RunState) :
    (keepaliveStep cfg s).counter = s.counter := by
  unfold keepaliveStep; split <;> rfl

@[simp] lemma keepaliveStep_gen (cfg : SenderCfg) (s : RunState) :
    (keepaliveStep cfg s).gen = s.gen := by
  unfold keepaliveStep; split <;> rfl

@[simp] lemma keepaliveStep_cursor (cfg : SenderCfg) (s : RunState) :
    (keepaliveStep cfg s).cursor = s.cursor := by
  unfold keepaliveStep; split <;> rfl

@[simp] lemma keepaliveStep_trace (cfg : SenderCfg) (s : RunState) :
    (keepaliveStep cfg s).trace = s.trace := by
  unfold keepaliveStep; split <;> rfl

@[simp] lemma keepaliveStep_batchFlag (cfg : SenderCfg) (s : RunState) :
    (keepaliveStep cfg s).batchFlushFailed = s.batchFlushFailed := by
  unfold keepaliveStep; split <;> rfl

@[simp] lemma keepaliveStep_finalFlag (cfg : SenderCfg) (s : RunState) :
    (keepaliveStep cfg s).finalFlushFailed = s.finalFlushFailed := by
  unfold keepaliveStep; split <;> rfl

@[simp] lemma keepaliveStep_sizes (cfg : SenderCfg) (s : RunState) :
    (keepaliveStep cfg s).batchSizes = s.batchSizes := by
  unfold keepaliveStep; split <;> rfl


@[simp] lemma postFlushState_rows (cfg : SenderCfg) (a : Nat) (s : RunState) :
    (postFlushState cfg a s).rows_sent = s.rows_sent + a := by
  simp [postFlushState]

@[simp] lemma postFlushState_counter (cfg : SenderCfg) (a : Nat)
    (s : RunState) : (postFlushState cfg a s).counter = s.counter + a := by
  simp [postFlushState]

@[simp] lemma postFlushState_gen (cfg : SenderCfg) (a : Nat) (s : RunState) :
    (postFlushState cfg a s).gen = s.gen := by
  simp [postFlushState]

@[simp] lemma postFlushState_cursor (cfg : SenderCfg) (a : Nat)
    (s : RunState) : (postFlushState cfg a s).cursor = s.cursor := by
  simp [postFlushState]

@[simp] lemma postFlushState_trace (cfg : SenderCfg) (a : Nat)
    (s : RunState) : (postFlushState cfg a s).trace = s.trace := by
  simp [postFlushState]

@[simp] lemma postFlushState_batchFlag (cfg : SenderCfg) (a : Nat)
    (s : RunState) :
    (postFlushState cfg a s).batchFlushFailed = s.batchFlushFailed := by
  simp [postFlushState]

@[simp] lemma postFlushState_finalFlag (cfg : SenderCfg) (a : Nat)
    (s : RunState) :
    (postFlushState cfg a s).finalFlushFailed = s.finalFlushFailed := by
  simp [postFlushState]

@[simp] lemma postFlushState_sizes (cfg : SenderCfg) (a : Nat)
    (s : RunState) :
    (postFlushState cfg a s).batchSizes = s.batchSizes ++ [a] := by
  simp [postFlushState]

lemma flushAndCont_state_facts (cfg : SenderCfg) (a : Nat) (s3 : RunState) :
    ((flushAndCont cfg a s3).state.counter + s3.rows_sent =
      (flushAndCont cfg a s3).state.rows_sent + s3.counter) ∧
    (s3.rows_sent ≤ (flushAndCont cfg a s3).state.rows_sent) ∧
    ((flushAndCont cfg a s3).state.rows_sent ≤ s3.rows_sent + a) ∧
    ((flushAndCont cfg a s3).state.gen.symbols = s3.gen.symbols) ∧
    ((flushAndCont cfg a s3).state.finalFlushFailed = s3.finalFlushFailed) ∧
    ((flushAndCont cfg a s3).state.trace = s3.trace) ∧
    ((flushAndCont cfg a s3).state.cursor = s3.cursor) := by
  unfold flushAndCont
  split
  · split
    · refine ⟨?_, ?_, ?_, ?_, ?_, ?_, ?_⟩ <;> simp [IterOut.state] <;> omega
    · rename_i s5 hp
      obtain ⟨p1, p2, p3, p4, p5, p6, p7, p8, p9⟩ :=
        pauseStep_facts cfg _ s5 hp
      refine ⟨?_, ?_, ?_, ?_, ?_, ?_, ?_⟩ <;>
        simp [IterOut.state, p1, p2, p3, p4, p5, p8] <;> omega
  · refine ⟨?_, ?_, ?_, ?_, ?_, ?_, ?_⟩ <;> simp [IterOut.state] <;> omega

lemma flushAndCont_result_facts (cfg : SenderCfg) (a : Nat) (s3 : RunState) :
    (∀ r t, flushAndCont cfg a s3 = .done r t →
      r ≠ .ok ∧ r ≠ .flushFinalError ∧ r ≠ .connectError ∧
      (r = .flushBatchError → t.batchFlushFailed = true) ∧
      (r ≠ .flushBatchError →
        t.batchFlushFailed = s3.batchFlushFailed)) ∧
    (∀ t, flushAndCont cfg a s3 = .cont t →
      t.batchFlushFailed = s3.batchFlushFailed ∧
      t.rows_sent = s3.rows_sent + a) := by
  unfold flushAndCont
  split
  · split
    · rename_i hp
      constructor
      · intro r t h
        cases h
        refine ⟨by simp, by simp, by simp, by simp, ?_⟩
        intro _
        simp
      · intro t h
        cases h
    · rename_i s5 hp
      obtain ⟨p1, p2, p3, p4, p5, p6, p7, p8, p9⟩ :=
        pauseStep_facts cfg _ s5 hp
      constructor
      · intro r t h
        cases h
      · intro t h
        cases h
        refine ⟨?_, ?_⟩
        · simp [p7]
        · simp [p1]
  · constructor
    · intro r t h
      cases h
      refine ⟨by simp, by simp, by simp, ?_, ?_⟩
      · intro _
        rfl
      · intro hne
        exact absurd rfl hne
    · intro t h
      cases h

lemma batchStep_state_facts (cfg : SenderCfg) (a : Nat) (s2 : RunState) :
    ((batchStep cfg a s2).state.counter + s2.rows_sent =
      (batchStep cfg a s2).state.rows_sent + s2.counter) ∧
    (s2.rows_sent ≤ (batchStep cfg a s2).state.rows_sent) ∧
    ((batchStep cfg a s2).state.rows_sent ≤ s2.rows_sent + a) ∧
    ((batchStep cfg a s2).state.gen.symbols = s2.gen.symbols) ∧
    ((batchStep cfg a s2).state.finalFlushFailed = s2.finalFlushFailed) ∧
    (List.Pairwise (· ≤ ·) (atValues s2.trace) →
      (∀ v ∈ atValues s2.trace, v ≤ s2.cursor) →
      List.Pairwise (· ≤ ·) (atValues (batchStep cfg a s2).state.trace) ∧
      (∀ v ∈ atValues (batchStep cfg a s2).state.trace,
        v ≤ (batchStep cfg a s2).state.cursor)) := by
  unfold batchStep
  split
  · exact ⟨Nat.add_comm _ _, le_refl _, Nat.le_add_right _ _, rfl, rfl,
      fun h1 h2 => ⟨h1, h2⟩⟩
  · rename_i rr hr
    obtain ⟨r1, r2, r3, r4⟩ := sendRows_facts cfg.table_name
      cfg.symbol_columns cfg.field_columns _ _ _ rr.1 rr.2.1 rr.2.2 hr
    obtain ⟨f1, f2, f3, f4, f5, f6, f7⟩ := flushAndCont_state_facts cfg a
      { s2 with cursor := rr.2.1, gen := rr.2.2, trace := s2.trace ++ rr.1 }
    simp only [RunState.gen, RunState.trace, RunState.cursor,
      RunState.rows_sent, RunState.counter, RunState.finalFlushFailed]
      at f1 f2 f3 f4 f5 f6 f7
    refine ⟨by omega, by omega, by omega, by rw [f4, r2], f5, ?_⟩
    intro hsorted hbound
    rw [f6, f7]
    rw [atValues_append]
    constructor
    · rw [List.pairwise_append]
      refine ⟨hsorted, r3, ?_⟩
      intro v hv w hw
      have h1 := hbound v hv
      have h2 := (r4 w hw).1
      omega
    · intro v hv
      rcases List.mem_append.mp hv with hv | hv
      · have := hbound v hv
        omega
      · exact (r4 v hv).2

lemma batchStep_result_facts (cfg : SenderCfg) (a : Nat) (s2 : RunState) :
    (∀ r t, batchStep cfg a s2 = .done r t →
      r ≠ .ok ∧ r ≠ .flushFinalError ∧ r ≠ .connectError ∧
      (r = .flushBatchError → t.batchFlushFailed = true) ∧
      (r ≠ .flushBatchError →
        t.batchFlushFailed = s2.batchFlushFailed)) ∧
    (∀ t, batchStep cfg a s2 = .cont t →
      t.batchFlushFailed = s2.batchFlushFailed ∧
      t.rows_sent = s2.rows_sent + a) := by
  unfold batchStep
  split
  · constructor
    · intro r t h
      cases h
      refine ⟨by simp, by simp, by simp, ?_, ?_⟩
      · intro hcontra
        cases hcontra
      · intro _
        rfl
    · intro t h
      cases h
  · rename_i rr hr
    obtain ⟨fd, fc⟩ := flushAndCont_result_facts cfg a
      { s2 with cursor := rr.2.1, gen := rr.2.2, trace := s2.trace ++ rr.1 }
    constructor
    · intro r t h
      obtain ⟨h1, h2, h3, h4, h5⟩ := fd r t h
      exact ⟨h1, h2, h3, h4, h5⟩
    · intro t h
      exact fc t h

lemma runIter_state_facts (cfg : SenderCfg) (s : RunState) :
    s.rows_sent ≤ (runIter cfg s).state.rows_sent ∧
    (s.rows_sent ≤ cfg.rows_to_send →
      (runIter cfg s).state.rows_sent ≤ cfg.rows_to_send) ∧
    ((runIter cfg s).state.counter + s.rows_sent =
      (runIter cfg s).state.rows_sent + s.counter) ∧
    ((runIter cfg s).state.gen.symbols = s.gen.symbols) ∧
    ((runIter cfg s).state.finalFlushFailed = s.finalFlushFailed) ∧
    (List.Pairwise (· ≤ ·) (atValues s.trace) →
      (∀ v ∈ atValues s.trace, v ≤ s.cursor) →
      List.Pairwise (· ≤ ·) (atValues (runIter cfg s).state.trace) ∧
      (∀ v ∈ atValues (runIter cfg s).state.trace,
        v ≤ (runIter cfg s).state.cursor)) := by
  unfold runIter
  split
  · exact ⟨le_refl _, fun h => h, Nat.add_comm _ _, rfl, rfl,
      fun h1 h2 => ⟨h1, h2⟩⟩
  · rename_i s1 hc
    obtain ⟨c1, c2, c3, c4, c5, c6, c7, c8, c9⟩ := connectStep_facts cfg s s1 hc
    split
    · refine ⟨?_, ?_, ?_, ?_, ?_, ?_⟩
      · simp [IterOut.state]
        omega
      · simp [IterOut.state]
        omega
      · simp [IterOut.state]
        omega
      · simp [IterOut.state, c3]
      · simp [IterOut.state, c8]
      · intro h1 h2
        simp only [IterOut.state, c4, c5]
        exact ⟨h1, h2⟩
    · obtain ⟨b1, b2, b3, b4, b5, b6⟩ := batchStep_state_facts cfg
        (min ((s1.gen.rng.rangeIncl cfg.send_settings.batch_size.1
            cfg.send_settings.batch_size.2).1)
          (cfg.rows_to_send - s1.rows_sent))
        { s1 with gen :=
            (s1.gen.withRng
              (s1.gen.rng.rangeIncl cfg.send_settings.batch_size.1
                cfg.send_settings.batch_size.2).2) }
      dsimp only at b1 b2 b3 b4 b5 b6
      refine ⟨by omega, by omega, by omega, ?_, ?_, ?_⟩
      · rw [b4]
        simp [c3]
      · rw [b5, c8]
      · intro hsorted hbound
        refine b6 ?_ ?_
        · rw [c5]
          exact hsorted
        · rw [c5, c4]
          exact hbound

lemma runIter_result_facts (cfg : SenderCfg) (s : RunState) :
    (∀ r t, runIter cfg s = .done r t →
      r ≠ .ok ∧ r ≠ .flushFinalError ∧
      (r = .flushBatchError → t.batchFlushFailed = true) ∧
      (r ≠ .flushBatchError → t.batchFlushFailed = s.batchFlushFailed)) ∧
    (∀ t, runIter cfg s = .cont t →
      t.batchFlushFailed = s.batchFlushFailed) := by
  unfold runIter
  split
  · constructor
    · intro r t h
      cases h
      refine ⟨?_, ?_, ?_, ?_⟩
      · simp
      · simp
      · intro hh
        exact absurd hh (by decide)
      · intro _
        rfl
    · intro t h
      cases h
  · rename_i s1 hc
    obtain ⟨c1, c2, c3, c4, c5, c6, c7, c8, c9⟩ := connectStep_facts cfg s s1 hc
    split
    · constructor
      · intro r t h
        cases h
        refine ⟨?_, ?_, ?_, ?_⟩
        · simp
        · simp
        · intro hh
          exact absurd hh (by decide)
        · intro _
          exact c7
      · intro t h
        cases h
    · obtain ⟨bd, bc⟩ := batchStep_result_facts cfg
        (min ((s1.gen.rng.rangeIncl cfg.send_settings.batch_size.1
            cfg.send_settings.batch_size.2).1)
          (cfg.rows_to_send - s1.rows_sent))
        { s1 with gen :=
            (s1.gen.withRng
              (s1.gen.rng.rangeIncl cfg.send_settings.batch_size.1
                cfg.send_settings.batch_size.2).2) }
      constructor
      · intro r t h
        obtain ⟨h1, h2, h3, h4, h5⟩ := bd r t h
        refine ⟨h1, h2, h4, ?_⟩
        intro hne
        rw [h5 hne]
        exact c7
      · intro t h
        obtain ⟨hb, _⟩ := bc t h
        rw [hb]
        exact c7

lemma runIter_progress (cfg : SenderCfg) (s : RunState)
    (hmin : 1 ≤ cfg.send_settings.batch_size.1)
    (hlt : s.rows_sent < cfg.rows_to_send) :
    ∀ t, runIter cfg s = .cont t → s.rows_sent < t.rows_sent := by
  unfold runIter
  split
  · intro t h
    cases h
  · rename_i s1 hc
    obtain ⟨c1, c2, c3, c4, c5, c6, c7, c8, c9⟩ := connectStep_facts cfg s s1 hc
    split
    · intro t h
      cases h
    · intro t h
      obtain ⟨bd, bc⟩ := batchStep_result_facts cfg
        (min ((s1.gen.rng.rangeIncl cfg.send_settings.batch_size.1
            cfg.send_settings.batch_size.2).1)
          (cfg.rows_to_send - s1.rows_sent))
        { s1 with gen :=
            (s1.gen.withRng
              (s1.gen.rng.rangeIncl cfg.send_settings.batch_size.1
                cfg.send_settings.batch_size.2).2) }
      obtain ⟨_, hrows⟩ := bc t h
      dsimp only at hrows
      have hdraw : 1 ≤ (s1.gen.rng.rangeIncl cfg.send_settings.batch_size.1
          cfg.send_settings.batch_size.2).1 := by
        simp only [Rng.rangeIncl, Rng.next]
        omega
      omega

lemma runFuel_facts (cfg : SenderCfg) :
    ∀ (fuel : Nat) (s : RunState) (res : RunResult) (s' : RunState),
      runFuel cfg fuel s = some (res, s') →
      (s.rows_sent ≤ s'.rows_sent) ∧
      (s.rows_sent ≤ cfg.rows_to_send → s'.rows_sent ≤ cfg.rows_to_send) ∧
      (s'.counter + s.rows_sent = s'.rows_sent + s.counter) ∧
      (s'.gen.symbols = s.gen.symbols) ∧
      (res = .ok → cfg.rows_to_send ≤ s'.rows_sent) ∧
      (s.batchFlushFailed = false →
        ((res = .flushBatchError) ↔ s'.batchFlushFailed = true)) ∧
      (s.finalFlushFailed = false →
        ((res = .flushFinalError) ↔ s'.finalFlushFailed = true)) ∧
      (List.Pairwise (· ≤ ·) (atValues s.trace) →
        (∀ v ∈ atValues s.trace, v ≤ s.cursor) →
        List.Pairwise (· ≤ ·) (atValues s'.trace) ∧
        (∀ v ∈ atValues s'.trace, v ≤ s'.cursor)) := by
  intro fuel
  induction fuel with
  | zero =>
    intro s res s' h
    simp [runFuel] at h
  | succ n ih =>
    intro s res s' h
    rw [runFuel] at h
    split at h
    · rename_i hlt
      cases hit : runIter cfg s with
      | done r t =>
        rw [hit] at h
        simp only [Option.some.injEq, Prod.mk.injEq] at h
        obtain ⟨rfl, rfl⟩ := h
        have sf := runIter_state_facts cfg s
        rw [hit] at sf
        simp only [IterOut.state] at sf
        obtain ⟨f1, f2, f3, f4, f5, f6⟩ := sf
        obtain ⟨rd, _⟩ := runIter_result_facts cfg s
        obtain ⟨g1, g2, g3, g4⟩ := rd r t hit
        refine ⟨f1, f2, f3, f4, fun hok => absurd hok g1, ?_, ?_, f6⟩
        · intro hflag
          constructor
          · intro hres
            exact g3 hres
          · intro hflag'
            by_contra hres
            rw [g4 hres] at hflag'
            rw [hflag] at hflag'
            cases hflag'
        · intro hflag
          constructor
          · intro hres
            exact absurd hres g2
          · intro hflag'
            rw [f5, hflag] at hflag'
            cases hflag'
      | cont t =>
        rw [hit] at h
        have sf := runIter_state_facts cfg s
        rw [hit] at sf
        simp only [IterOut.state] at sf
        obtain ⟨f1, f2, f3, f4, f5, f6⟩ := sf
        obtain ⟨_, rc⟩ := runIter_result_facts cfg s
        have hflagc := rc t hit
        obtain ⟨i1, i2, i3, i4, i5, i6, i7, i8⟩ := ih t res s' h
        refine ⟨by omega, fun hb => i2 (f2 hb), by omega, by rw [i4, f4],
          i5, ?_, ?_, ?_⟩
        · intro hflag
          rw [hflagc, hflag] at i6
          exact i6 rfl
        · intro hflag
          rw [f5, hflag] at i7
          exact i7 rfl
        · intro hsorted hbound
          obtain ⟨t1, t2⟩ := f6 hsorted hbound
          exact i8 t1 t2
    · rename_i hge
      split at h
      · split at h
        · simp only [Option.some.injEq, Prod.mk.injEq] at h
          obtain ⟨rfl, rfl⟩ := h
          refine ⟨?_, ?_, ?_, ?_, ?_, ?_, ?_, ?_⟩
          · exact le_refl _
          · exact fun hb => hb
          · exact Nat.add_comm _ _
          · rfl
          · intro _
            dsimp only
            omega
          · intro hflag
            constructor
            · intro hres
              cases hres
            · intro hflag'
              dsimp only at hflag'
              rw [hflag] at hflag'
              cases hflag'
          · intro hflag
            constructor
            · intro hres
              cases hres
            · intro hflag'
              dsimp only at hflag'
              rw [hflag] at hflag'
              cases hflag'
          · exact fun h1 h2 => ⟨h1, h2⟩
        · simp only [Option.some.injEq, Prod.mk.injEq] at h
          obtain ⟨rfl, rfl⟩ := h
          refine ⟨?_, ?_, ?_, ?_, ?_, ?_, ?_, ?_⟩
          · exact le_refl _
          · exact fun hb => hb
          · exact Nat.add_comm _ _
          · rfl
          · intro hok
            cases hok
          · intro hflag
            constructor
            · intro hres
              cases hres
            · intro hflag'
              dsimp only at hflag'
              rw [hflag] at hflag'
              cases hflag'
          · intro _
            constructor
            · intro _
              rfl
            · intro _
              rfl
          · exact fun h1 h2 => ⟨h1, h2⟩
      · simp only [Option.some.injEq, Prod.mk.injEq] at h
        obtain ⟨rfl, rfl⟩ := h
        refine ⟨?_, ?_, ?_, ?_, ?_, ?_, ?_, ?_⟩
        · exact le_refl _
        · exact fun hb => hb
        · exact Nat.add_comm _ _
        · rfl
        · intro _
          omega
        · intro hflag
          constructor
          · intro hres
            cases hres
          · intro hflag'
            rw [hflag] at hflag'
            cases hflag'
        · intro hflag
          constructor
          · intro hres
            cases hres
          · intro hflag'
            rw [hflag] at hflag'
            cases hflag'
        · exact fun h1 h2 => ⟨h1, h2⟩

lemma runFuel_terminates (cfg : SenderCfg)
    (hmin : 1 ≤ cfg.send_settings.batch_size.1) :
    ∀ (fuel : Nat) (s : RunState), cfg.rows_to_send - s.rows_sent < fuel →
      (runFuel cfg fuel s).isSome := by
  intro fuel
  induction fuel with
  | zero =>
    intro s h
    exact absurd h (Nat.not_lt_zero _)
  | succ n ih =>
    intro s h
    rw [runFuel]
    split
    · rename_i hlt
      cases hit : runIter cfg s with
      | done r t => simp
      | cont t =>
        have hp := runIter_progress cfg s hmin hlt t hit
        exact ih t (by omega)
    · split
      · split
        · simp
        · simp
      · simp

lemma initRunState_rows (cfg : SenderCfg) (start : Int) :
    (initRunState cfg start).rows_sent = 0 := rfl

lemma initRunState_counter (cfg : SenderCfg) (start : Int) :
    (initRunState cfg start).counter = 0 := rfl

lemma initRunState_trace (cfg : SenderCfg) (start : Int) :
    (initRunState cfg start).trace = [] := rfl

/-- **C3 (amended).** Per-batch flush failures and the final-completion
flush failure are fatal to the Sender Unit: the run returns that error,
without retry (conversely, only such a failure yields that error), and
rows counted before the failure are never un-counted (the shared-counter
contribution is monotone).  The flush performed when the connection is
closed at the keepalive threshold is the exception the original claim
misses: its failure is only logged and the unit continues (see the
counterexample). -/
theorem flush_failure_fatality (cfg : SenderCfg) (fuel : Nat) (s : RunState)
    (res : RunResult) (s' : RunState)
    (hb : s.batchFlushFailed = false) (hf : s.finalFlushFailed = false)
    (h : runFuel cfg fuel s = some (res, s')) :
    ((res = .flushBatchError) ↔ s'.batchFlushFailed = true) ∧
    ((res = .flushFinalError) ↔ s'.finalFlushFailed = true) ∧
    s.counter ≤ s'.counter := by
  obtain ⟨f1, f2, f3, f4, f5, f6, f7, f8⟩ := runFuel_facts cfg fuel s res s' h
  exact ⟨f6 hb, f7 hf, by omega⟩

/-- Witness for C3 (amended): the 5-row scenario whose second per-batch
flush fails. -/
theorem flush_failure_fatality_witness :
    (initRunState scenarioFailCfg 0).batchFlushFailed = false ∧
    (initRunState scenarioFailCfg 0).finalFlushFailed = false ∧
    (((scenarioFailOut.1 = .flushBatchError) ↔
        scenarioFailOut.2.batchFlushFailed = true) ∧
      ((scenarioFailOut.1 = .flushFinalError) ↔
        scenarioFailOut.2.finalFlushFailed = true) ∧
      (initRunState scenarioFailCfg 0).counter ≤ scenarioFailOut.2.counter) := by
  refine ⟨rfl, rfl, ?_⟩
  exact flush_failure_fatality scenarioFailCfg 12 (initRunState scenarioFailCfg 0)
    scenarioFailOut.1 scenarioFailOut.2 rfl rfl rfl

/-- Counterexample to C3 as stated: with keepalive threshold 1 and every
keepalive-disconnect flush failing (flush outcomes alternate ok/fail, and
the odd flush calls are exactly the keepalive ones), the unit merely warns
twice (`warned = 2`), keeps sending, sends its whole 2-row quota, and
returns success — the keepalive-flush failure is not fatal and is not
propagated. -/
theorem keepalive_flush_failure_not_fatal :
    (runFuel keepaliveFailCfg 8 (initRunState keepaliveFailCfg 0)).map
        (fun p => (p.1, p.2.warned, p.2.counter, p.2.rows_sent)) =
      some (.ok, 2, 2, 2) := by
  rfl

/-- **C4.** A Sender Unit that runs to completion has added exactly its
assigned row quota to the shared Progress Counter; the quotas of all of a
table's units sum to `total_rows`; and in the scenario of a 5-row quota
with 1-row batches whose second batch flush fails, the run reports the
flush failure with the counter at exactly 1. -/
theorem progress_counter_spec :
    (∀ (cfg : SenderCfg) (start : Int) (fuel : Nat) (s' : RunState),
      runFuel cfg fuel (initRunState cfg start) = some (.ok, s') →
      s'.counter = cfg.rows_to_send) ∧
    (∀ (total_rows sender_count : Nat), 1 ≤ sender_count →
      (∑ i ∈ Finset.range sender_count,
        rows_for_sender total_rows sender_count i) = total_rows) ∧
    (runFuel scenarioFailCfg 12 (initRunState scenarioFailCfg 0)).map
        (fun p => (p.1, p.2.counter)) = some (.flushBatchError, 1) := by
  refine ⟨?_, fun t n hn => rows_for_sender_sum t n hn, by rfl⟩
  intro cfg start fuel s' h
  obtain ⟨f1, f2, f3, f4, f5, f6, f7, f8⟩ := runFuel_facts cfg fuel _ _ s' h
  have h0 := initRunState_rows cfg start
  have h1 := initRunState_counter cfg start
  have hok := f5 rfl
  have hb := f2 (by omega)
  omega

/-- Witness for C4: the 25-row unit completes with counter 25, and the
100-rows-3-senders quotas sum to 100. -/
theorem progress_counter_spec_witness :
    scenario25Out.2.counter = scenario25Cfg.rows_to_send ∧
    (1 : Nat) ≤ 3 ∧
    (∑ i ∈ Finset.range 3, rows_for_sender 100 3 i) = 100 := by
  refine ⟨?_, by decide, progress_counter_spec.2.1 100 3 (by decide)⟩
  exact progress_counter_spec.1 scenario25Cfg 0 30 scenario25Out.2 (by rfl)

/-- **C5.** Within a single Sender Unit, the designated timestamps across
all rows emitted during the whole run form a non-decreasing sequence; each
row first advances the unit's timestamp cursor by a uniform random
increment in `[1ms, 10ms)` nanoseconds and then sets the row's designated
timestamp to the cursor value. -/
theorem designated_timestamps_monotone :
    (∀ (cfg : SenderCfg) (start : Int) (fuel : Nat) (res : RunResult)
      (s' : RunState),
      runFuel cfg fuel (initRunState cfg start) = some (res, s') →
      List.Pairwise (· ≤ ·) (atValues s'.trace)) ∧
    (∀ (tn : String) (sc : List String) (fc : List (String × ColType))
      (cur : Int) (g : DataGenerator) (evs : List IlpEvent) (cur' : Int)
      (g' : DataGenerator),
      buildRow tn sc fc cur g = some (evs, cur', g') →
      cur + 1000000 ≤ cur' ∧ cur' < cur + 10000000 ∧
      atValues evs = [cur']) := by
  constructor
  · intro cfg start fuel res s' h
    obtain ⟨_, _, _, _, _, _, _, f8⟩ := runFuel_facts cfg fuel _ res s' h
    have ht := initRunState_trace cfg start
    refine (f8 ?_ ?_).1
    · rw [ht]
      exact List.Pairwise.nil
    · rw [ht]
      intro v hv
      simp [atValues] at hv
  · intro tn sc fc cur g evs cur' g' h
    obtain ⟨b1, b2, b3, _⟩ := buildRow_facts tn sc fc cur g evs cur' g' h
    exact ⟨b1, b2, b3⟩

/-- Witness for C5: the 25-row run's trace, and a concrete one-row build. -/
theorem designated_timestamps_monotone_witness :
    List.Pairwise (· ≤ ·) (atValues scenario25Out.2.trace) ∧
    buildRow "t" [] [] 0 ⟨[], 0, ⟨fun _ => 0, 0⟩⟩ =
      some ([.table "t", .atTs 1000000], 1000000, ⟨[], 0, ⟨fun _ => 0, 1⟩⟩) ∧
    atValues [IlpEvent.table "t", IlpEvent.atTs 1000000] = [1000000] := by
  refine ⟨?_, by rfl, ?_⟩
  · exact designated_timestamps_monotone.1 scenario25Cfg 0 30 scenario25Out.1
      scenario25Out.2 (by rfl)
  · exact (designated_timestamps_monotone.2 "t" [] [] 0 ⟨[], 0, ⟨fun _ => 0, 0⟩⟩
      [.table "t", .atTs 1000000] 1000000 ⟨[], 0, ⟨fun _ => 0, 1⟩⟩ (by rfl)).2.2

/-- **C7.** Each batch samples a size uniformly from the configured
`[min, max]` range — for `min ≤ max` the sampled value `rangeIncl` lies in
the range — clips it to the remaining quota (the `min` with the remaining
rows in `runIter`), and with `batch_size = (10, 10)` and `tot_rows = 25`
the recorded batch sizes are exactly `[10, 10, 5]` in that order. -/
theorem batch_size_sampling :
    (∀ (r : Rng) (lo hi : Nat), lo ≤ hi →
      lo ≤ (r.rangeIncl lo hi).1 ∧ (r.rangeIncl lo hi).1 ≤ hi) ∧
    (runFuel scenario25Cfg 30 (initRunState scenario25Cfg 0)).map
        (fun p => (p.1, p.2.batchSizes)) = some (.ok, [10, 10, 5]) := by
  constructor
  · intro r lo hi hle
    simp only [Rng.rangeIncl, Rng.next]
    constructor
    · omega
    · have := Nat.mod_lt (r.stream r.pos) (show 0 < hi + 1 - lo by omega)
      omega
  · rfl

/-- Witness for C7 at the fixed range `[10, 10]`. -/
theorem batch_size_sampling_witness :
    (10 : Nat) ≤ 10 ∧
    10 ≤ ((Rng.mk (fun _ => 0) 0).rangeIncl 10 10).1 ∧
    ((Rng.mk (fun _ => 0) 0).rangeIncl 10 10).1 ≤ 10 := by
  refine ⟨by decide, ?_, ?_⟩
  · exact (batch_size_sampling.1 ⟨fun _ => 0, 0⟩ 10 10 (by decide)).1
  · exact (batch_size_sampling.1 ⟨fun _ => 0, 0⟩ 10 10 (by decide)).2

lemma pauseStep_zeroBatch_some (s : RunState) :
    ∃ t, pauseStep zeroBatchCfg s = some t ∧ t.rows_sent = s.rows_sent := by
  unfold pauseStep
  split
  · rw [if_neg (by decide)]
    exact ⟨_, rfl, rfl⟩
  · exact ⟨_, rfl, rfl⟩

lemma flushAndCont_zeroBatch (a : Nat) (s3 : RunState) :
    ∃ t, flushAndCont zeroBatchCfg a s3 = .cont t ∧
      t.rows_sent = s3.rows_sent + a := by
  unfold flushAndCont
  rw [if_pos (show zeroBatchCfg.flushOk s3.flushIdx = true from rfl)]
  obtain ⟨t, hp, hr⟩ := pauseStep_zeroBatch_some
    (postFlushState zeroBatchCfg a s3)
  rw [hp]
  refine ⟨t, rfl, ?_⟩
  rw [hr]
  simp

lemma batchStep_zeroBatch (s2 : RunState) :
    ∃ t, batchStep zeroBatchCfg 0 s2 = .cont t ∧
      t.rows_sent = s2.rows_sent := by
  unfold batchStep
  simp only [sendRows]
  obtain ⟨t, hf, hr⟩ := flushAndCont_zeroBatch 0
    { s2 with cursor := s2.cursor, gen := s2.gen, trace := s2.trace ++ [] }
  rw [hf]
  refine ⟨t, rfl, ?_⟩
  rw [hr]
  simp

lemma zeroBatch_iter (s : RunState) (h0 : s.rows_sent = 0) :
    ∃ t, runIter zeroBatchCfg s = .cont t ∧ t.rows_sent = 0 := by
  unfold runIter
  split
  · rename_i hc
    exfalso
    unfold connectStep at hc
    split at hc
    · cases hc
    · split at hc
      · cases hc
      · rename_i hcond
        exact hcond rfl
  · rename_i s1 hc
    obtain ⟨c1, c2, c3, c4, c5, c6, c7, c8, c9⟩ :=
      connectStep_facts zeroBatchCfg s s1 hc
    rw [if_neg (by decide)]
    have hactual : min ((s1.gen.rng.rangeIncl
        zeroBatchCfg.send_settings.batch_size.1
        zeroBatchCfg.send_settings.batch_size.2).1)
        (zeroBatchCfg.rows_to_send - s1.rows_sent) = 0 := by
      simp only [Rng.rangeIncl, Rng.next, Nat.min_eq_zero_iff,
        show zeroBatchCfg.send_settings.batch_size.1 = 0 from rfl,
        show zeroBatchCfg.send_settings.batch_size.2 = 0 from rfl]
      omega
    rw [hactual]
    obtain ⟨t, hb, hr⟩ := batchStep_zeroBatch
      { s1 with gen :=
          (s1.gen.withRng
            (s1.gen.rng.rangeIncl zeroBatchCfg.send_settings.batch_size.1
              zeroBatchCfg.send_settings.batch_size.2).2) }
    rw [hb]
    refine ⟨t, rfl, ?_⟩
    rw [hr]
    dsimp only
    omega

lemma zeroBatch_never (fuel : Nat) :
    ∀ s : RunState, s.rows_sent = 0 → runFuel zeroBatchCfg fuel s = none := by
  induction fuel with
  | zero =>
    intro s h0
    rfl
  | succ n ih =>
    intro s h0
    rw [runFuel]
    rw [if_pos (by rw [h0]; decide)]
    obtain ⟨t, hit, ht⟩ := zeroBatch_iter s h0
    rw [hit]
    exact ih t ht

/-- Counterexample to C8 as stated: with the configurable batch-size range
`(0, 0)` (which satisfies `min ≤ max`) and a finite quota of 1 row, every
sampled batch is empty, the loop makes no progress, and the run never
returns however much fuel it is given — the run loop of `TableSender::run`
does not terminate. -/
theorem zero_batch_size_loops_forever :
    runNeverReturns zeroBatchCfg (initRunState zeroBatchCfg 0) :=
  fun fuel => zeroBatch_never fuel _ (initRunState_rows zeroBatchCfg 0)

/-- **C8 (amended).** For every Sender Unit with a finite row quota and a
batch-size configuration whose minimum is at least 1, the run loop
terminates — fuel `rows_to_send + 1` suffices for the run to return — and
a run that completes successfully has sent exactly its quota.  (The
original claim, which required only `min ≤ max`, fails at `min = 0`: see
the counterexample.) -/
theorem run_loop_terminates_with_positive_batch (cfg : SenderCfg)
    (start : Int) (hmin : 1 ≤ cfg.send_settings.batch_size.1) :
    (runFuel cfg (cfg.rows_to_send + 1) (initRunState cfg start)).isSome ∧
    (∀ s', runFuel cfg (cfg.rows_to_send + 1) (initRunState cfg start) =
        some (.ok, s') → s'.rows_sent = cfg.rows_to_send) := by
  constructor
  · refine runFuel_terminates cfg hmin (cfg.rows_to_send + 1) _ ?_
    have h0 := initRunState_rows cfg start
    omega
  · intro s' h
    obtain ⟨f1, f2, f3, f4, f5, _, _, _⟩ := runFuel_facts cfg _ _ _ s' h
    have h0 := initRunState_rows cfg start
    have hb := f2 (by omega)
    have hok := f5 rfl
    omega

/-- Witness for C8 (amended) at the 25-row, batch-size-(10,10) unit. -/
theorem run_loop_terminates_with_positive_batch_witness :
    1 ≤ scenario25Cfg.send_settings.batch_size.1 ∧
    (runFuel scenario25Cfg (scenario25Cfg.rows_to_send + 1)
      (initRunState scenario25Cfg 0)).isSome := by
  refine ⟨by decide, ?_⟩
  exact (run_loop_terminates_with_positive_batch scenario25Cfg 0 (by decide)).1
